import Mathlib

/-!
# Clock / power-state controller of the stm32-camera firmware

A shallow embedding of `Src/app_hal/hal_system_speed.c` and of the inline
functions of `Src/app_utility/bitset.h`:

* the PLL configuration manager (`hal_system_speed_get_pll`,
  `hal_system_speed_set_pll`, `hal_system_speed_high`, `hal_system_speed_low`)
  over an explicit register bank `RccBank`;
* the sleep accounting and load sampling (`hal_system_speed_sleep`,
  `hal_system_speed_get_load`) over the four `cc_*` globals;
* the flag set (`bitsetSet`, `bitsetClear`, `bitsetIsSet`).

Machine words are natural numbers; every C operation that can leave the 32-bit
range (`+`, `-`, `<<`, `~`) is reduced explicitly.
-/

namespace SystemSpeed

/-! ## 32-bit arithmetic -/

/-- Addition `a + b` on `uint32_t`. -/
def add32 (a b : Nat) : Nat := (a + b) % 2 ^ 32

/-- Subtraction `a - b` on `uint32_t` (wraps below zero). -/
def sub32 (a b : Nat) : Nat := (a + (2 ^ 32 - b % 2 ^ 32)) % 2 ^ 32

/-- Left shift `a << n` on `uint32_t` (bits shifted past bit 31 are lost). -/
def shl32 (a n : Nat) : Nat := (a <<< n) % 2 ^ 32

/-- Complement `~a` on `uint32_t`: all 32 bits flipped. -/
def not32 (a : Nat) : Nat := (2 ^ 32 - 1) ^^^ a

/-- The mask of a bit field of `width` bits whose lowest bit is bit `pos`. -/
def fieldMask (pos width : Nat) : Nat := (2 ^ width - 1) <<< pos

/-- Two bit ranges `[a, a + wa)` and `[b, b + wb)` do not overlap. -/
def rangesDisjoint (a wa b wb : Nat) : Prop := a + wa ≤ b ∨ b + wb ≤ a

instance (a wa b wb : Nat) : Decidable (rangesDisjoint a wa b wb) := by
  unfold rangesDisjoint; infer_instance

/-! ## Data model -/

/-- Modelled from the spec: the declaration of `SystemSpeed_RCC_PLL_t` lives in
`hal_system_speed.h`, which is not among the sources. The spec describes it as
five unsigned integer fields `M, N, P, Q, R`; they are taken to be `uint32_t`,
so the structure has no padding and `memcmp` over it is field-wise equality. -/
structure SystemSpeed_RCC_PLL_t where
  PLLM : Nat
  PLLN : Nat
  PLLP : Nat
  PLLQ : Nat
  PLLR : Nat
deriving DecidableEq

/-- The register constants used by `hal_system_speed.c`. Their `#define`s are in
headers that are not among the sources (`hal_system_speed.h`,
`stm32f4xx_hal.h`), so they are parameters of the embedding. -/
structure RccConsts where
  RCC_PLLM_MASK : Nat
  RCC_PLLM_POS : Nat
  RCC_PLLN_MASK : Nat
  RCC_PLLN_POS : Nat
  RCC_PLLP_MASK : Nat
  RCC_PLLP_POS : Nat
  RCC_PLLQ_MASK : Nat
  RCC_PLLQ_POS : Nat
  RCC_PLLR_MASK : Nat
  RCC_PLLR_POS : Nat
  RCC_CR_HSION : Nat
  RCC_CR_HSIRDY : Nat
  RCC_CR_PLLON : Nat
  RCC_CR_PLLRDY : Nat
  RCC_CFGR_SW : Nat
  RCC_CFGR_SW_HSI : Nat
  RCC_CFGR_SW_PLL : Nat
deriving DecidableEq

/-- Modelled from the spec: the layout of the PLL configuration register, whose
constants are missing from the sources. Five bit fields of widths 6 (`M`),
9 (`N`), 2 (`P`), 4 (`Q`) and 3 (`R`) at fixed positions inside the 32-bit word,
occupying pairwise disjoint bit ranges. -/
structure RccConsts.PllFieldsOK (c : RccConsts) : Prop where
  maskM : c.RCC_PLLM_MASK = fieldMask c.RCC_PLLM_POS 6
  maskN : c.RCC_PLLN_MASK = fieldMask c.RCC_PLLN_POS 9
  maskP : c.RCC_PLLP_MASK = fieldMask c.RCC_PLLP_POS 2
  maskQ : c.RCC_PLLQ_MASK = fieldMask c.RCC_PLLQ_POS 4
  maskR : c.RCC_PLLR_MASK = fieldMask c.RCC_PLLR_POS 3
  fitM : c.RCC_PLLM_POS + 6 ≤ 32
  fitN : c.RCC_PLLN_POS + 9 ≤ 32
  fitP : c.RCC_PLLP_POS + 2 ≤ 32
  fitQ : c.RCC_PLLQ_POS + 4 ≤ 32
  fitR : c.RCC_PLLR_POS + 3 ≤ 32
  disjMN : rangesDisjoint c.RCC_PLLM_POS 6 c.RCC_PLLN_POS 9
  disjMP : rangesDisjoint c.RCC_PLLM_POS 6 c.RCC_PLLP_POS 2
  disjMQ : rangesDisjoint c.RCC_PLLM_POS 6 c.RCC_PLLQ_POS 4
  disjMR : rangesDisjoint c.RCC_PLLM_POS 6 c.RCC_PLLR_POS 3
  disjNP : rangesDisjoint c.RCC_PLLN_POS 9 c.RCC_PLLP_POS 2
  disjNQ : rangesDisjoint c.RCC_PLLN_POS 9 c.RCC_PLLQ_POS 4
  disjNR : rangesDisjoint c.RCC_PLLN_POS 9 c.RCC_PLLR_POS 3
  disjPQ : rangesDisjoint c.RCC_PLLP_POS 2 c.RCC_PLLQ_POS 4
  disjPR : rangesDisjoint c.RCC_PLLP_POS 2 c.RCC_PLLR_POS 3
  disjQR : rangesDisjoint c.RCC_PLLQ_POS 4 c.RCC_PLLR_POS 3

/-- Modelled from the spec: the control bits of the clock-control register and
the clock-source selector, whose constants are missing from the sources. The
oscillator-enable and PLL-enable controls are two different single bits of a
32-bit register; the selector is a 2-bit field and both source encodings are
values of that field. -/
structure RccConsts.ClockCtlOK (c : RccConsts) : Prop where
  hsion : ∃ i, i < 32 ∧ c.RCC_CR_HSION = 2 ^ i
  pllon : ∃ j, j < 32 ∧ c.RCC_CR_PLLON = 2 ^ j
  hsion_ne_pllon : c.RCC_CR_HSION ≠ c.RCC_CR_PLLON
  sw : ∃ k, k + 2 ≤ 32 ∧ c.RCC_CFGR_SW = fieldMask k 2
  sw_hsi : c.RCC_CFGR_SW_HSI &&& c.RCC_CFGR_SW = c.RCC_CFGR_SW_HSI
  sw_pll : c.RCC_CFGR_SW_PLL &&& c.RCC_CFGR_SW = c.RCC_CFGR_SW_PLL

/-- A concrete set of constants: the values of the STM32F446 reference manual
(`PLLM` bits 0..5, `PLLN` bits 6..14, `PLLP` bits 16..17, `PLLQ` bits 24..27,
`PLLR` bits 28..30; `HSION` bit 0, `HSIRDY` bit 1, `PLLON` bit 24, `PLLRDY`
bit 25; `SW` bits 0..1 with `HSI = 0` and `PLL = 2`). -/
def stm32f446 : RccConsts where
  RCC_PLLM_MASK := 0x0000003F
  RCC_PLLM_POS := 0
  RCC_PLLN_MASK := 0x00007FC0
  RCC_PLLN_POS := 6
  RCC_PLLP_MASK := 0x00030000
  RCC_PLLP_POS := 16
  RCC_PLLQ_MASK := 0x0F000000
  RCC_PLLQ_POS := 24
  RCC_PLLR_MASK := 0x70000000
  RCC_PLLR_POS := 28
  RCC_CR_HSION := 0x00000001
  RCC_CR_HSIRDY := 0x00000002
  RCC_CR_PLLON := 0x01000000
  RCC_CR_PLLRDY := 0x02000000
  RCC_CFGR_SW := 0x00000003
  RCC_CFGR_SW_HSI := 0x00000000
  RCC_CFGR_SW_PLL := 0x00000002

/-- The three RCC registers the module touches. -/
inductive RccReg where
  | CR
  | CFGR
  | PLLCFGR
deriving DecidableEq

/-- The register bank seen by the PLL manager, with the bookkeeping needed to
observe what a call did: the chronological list of register writes, the number
of readiness polls of `RCC->CR`, the number of `SystemCoreClockUpdate()` calls,
and the file-scope working copy `pll_working`. The bank is a memory: a
read-modify-write reads back what was last written. Only the readiness polls
see the hardware-driven status bits (see `RccBank.waitReady`). -/
structure RccBank where
  CR : Nat
  CFGR : Nat
  PLLCFGR : Nat
  writes : List (RccReg × Nat)
  polls : Nat
  coreClockUpdates : Nat
  pll_working : SystemSpeed_RCC_PLL_t
deriving DecidableEq

/-- The store `RCC->CR = v`. -/
def RccBank.writeCR (s : RccBank) (v : Nat) : RccBank :=
  { s with CR := v, writes := s.writes ++ [(RccReg.CR, v)] }

/-- The store `RCC->CFGR = v`. -/
def RccBank.writeCFGR (s : RccBank) (v : Nat) : RccBank :=
  { s with CFGR := v, writes := s.writes ++ [(RccReg.CFGR, v)] }

/-- The store `RCC->PLLCFGR = v`. -/
def RccBank.writePLLCFGR (s : RccBank) (v : Nat) : RccBank :=
  { s with PLLCFGR := v, writes := s.writes ++ [(RccReg.PLLCFGR, v)] }

/-- The call `SystemCoreClockUpdate()`: an external routine that recomputes the cached
core clock frequency; only the fact that it ran is recorded. -/
def RccBank.SystemCoreClockUpdate (s : RccBank) : RccBank :=
  { s with coreClockUpdates := s.coreClockUpdates + 1 }

/-! ## PLL configuration manager -/

/-- The hardware encoding of the `P` divider written by
`hal_system_speed_set_pll`: `(PLLP >> 1) - 1`. -/
def PLLP_encode (v : Nat) : Nat := sub32 (v >>> 1) 1

/-- The decoding of the `P` field done by `hal_system_speed_get_pll`:
`(field + 1) << 1`. -/
def PLLP_decode (e : Nat) : Nat := shl32 (add32 e 1) 1

/-- Embedding of `hal_system_speed_get_pll`: the value stored through
`pll_settings`, and the register bank afterwards. -/
def hal_system_speed_get_pll (c : RccConsts) (s : RccBank) :
    SystemSpeed_RCC_PLL_t × RccBank :=
  ({ PLLM := (s.PLLCFGR &&& c.RCC_PLLM_MASK) >>> c.RCC_PLLM_POS
     PLLN := (s.PLLCFGR &&& c.RCC_PLLN_MASK) >>> c.RCC_PLLN_POS
     PLLP := PLLP_decode ((s.PLLCFGR &&& c.RCC_PLLP_MASK) >>> c.RCC_PLLP_POS)
     PLLQ := (s.PLLCFGR &&& c.RCC_PLLQ_MASK) >>> c.RCC_PLLQ_POS
     PLLR := (s.PLLCFGR &&& c.RCC_PLLR_MASK) >>> c.RCC_PLLR_POS }, s)

/-- Embedding of `hal_system_speed_pll_ready`, on the value a read of `RCC->CR` returned. -/
def hal_system_speed_pll_ready (c : RccConsts) (cr : Nat) : Bool :=
  (cr &&& c.RCC_CR_PLLRDY) != 0

/-- Embedding of `hal_system_speed_hsi_ready`, on the value a read of `RCC->CR` returned. -/
def hal_system_speed_hsi_ready (c : RccConsts) (cr : Nat) : Bool :=
  (cr &&& c.RCC_CR_HSIRDY) != 0

/-- The loop `while (!ready() && timeout--);` on a `uint16_t timeout`.
`ready k` is the outcome of the poll number `k`. Returns the final value of
`timeout` and the number of the next poll. When `timeout` is `0` and the poll
fails, `timeout--` yields `0`, the loop ends and `timeout` wraps to `0xFFFF`. -/
def spinWait (ready : Nat → Bool) : Nat → Nat → Nat × Nat
  | 0, k => if ready k then (0, k + 1) else (0xFFFF, k + 1)
  | t + 1, k => if ready k then (t + 1, k + 1) else spinWait ready t (k + 1)

/-- The statements `timeout = 0xFFFF; while (!ready() && timeout--);` run on
the bank. The
readiness bits are status bits driven by the hardware: `hw k cr` is the value
the poll number `k` of `RCC->CR` returns when software last wrote `cr`. -/
def RccBank.waitReady (s : RccBank) (hw : Nat → Nat → Nat) (ready : Nat → Bool) :
    RccBank :=
  { s with polls := (spinWait (fun k => ready (hw k s.CR)) 0xFFFF s.polls).2 }

/-- Embedding of `hal_system_speed_set_pll` on the bank taken as a memory: the
read-modify-writes of `RCC->CR` read back what was last written, and only the
polls see the readiness bits. `hal_system_speed_set_pll_hw` is the embedding in
which every read of `RCC->CR` sees them; the two leave the same registers
outside the readiness bits of `RCC->CR`. -/
def hal_system_speed_set_pll (c : RccConsts) (hw : Nat → Nat → Nat) (s : RccBank)
    (pll_settings : SystemSpeed_RCC_PLL_t) : RccBank :=
  -- Read the existing PLL registers
  let tmp := (hal_system_speed_get_pll c s).1
  let s := (hal_system_speed_get_pll c s).2
  if pll_settings = tmp then
    s
  else
    -- Enable the HSI
    let s := s.writeCR (s.CR ||| c.RCC_CR_HSION)
    -- Ensure the HSI is ready
    let s := s.waitReady hw (hal_system_speed_hsi_ready c)
    -- Use the HSI as main clock
    let s := s.writeCFGR ((s.CFGR &&& not32 c.RCC_CFGR_SW) ||| c.RCC_CFGR_SW_HSI)
    -- Disable the PLL
    let s := s.writeCR (s.CR &&& not32 c.RCC_CR_PLLON)
    -- Set PLL settings from structure
    let s := if pll_settings.PLLM ≠ 0 then
        s.writePLLCFGR ((s.PLLCFGR &&& not32 c.RCC_PLLM_MASK)
          ||| (shl32 pll_settings.PLLM c.RCC_PLLM_POS &&& c.RCC_PLLM_MASK))
      else s
    let s := if pll_settings.PLLN ≠ 0 then
        s.writePLLCFGR ((s.PLLCFGR &&& not32 c.RCC_PLLN_MASK)
          ||| (shl32 pll_settings.PLLN c.RCC_PLLN_POS &&& c.RCC_PLLN_MASK))
      else s
    let s := if pll_settings.PLLP ≠ 0 then
        s.writePLLCFGR ((s.PLLCFGR &&& not32 c.RCC_PLLP_MASK)
          ||| (shl32 (PLLP_encode pll_settings.PLLP) c.RCC_PLLP_POS &&& c.RCC_PLLP_MASK))
      else s
    let s := if pll_settings.PLLQ ≠ 0 then
        s.writePLLCFGR ((s.PLLCFGR &&& not32 c.RCC_PLLQ_MASK)
          ||| (shl32 pll_settings.PLLQ c.RCC_PLLQ_POS &&& c.RCC_PLLQ_MASK))
      else s
    let s := if pll_settings.PLLR ≠ 0 then
        s.writePLLCFGR ((s.PLLCFGR &&& not32 c.RCC_PLLR_MASK)
          ||| (shl32 pll_settings.PLLR c.RCC_PLLR_POS &&& c.RCC_PLLR_MASK))
      else s
    -- Enable the PLL
    let s := s.writeCR (s.CR ||| c.RCC_CR_PLLON)
    -- Blocking wait until PLL is ready
    let s := s.waitReady hw (hal_system_speed_pll_ready c)
    -- Enable PLL as main clock
    let s := s.writeCFGR ((s.CFGR &&& not32 c.RCC_CFGR_SW) ||| c.RCC_CFGR_SW_PLL)
    -- Update system core clock variable
    s.SystemCoreClockUpdate

/-- Embedding of `hal_system_speed_high`. -/
def hal_system_speed_high (c : RccConsts) (hw : Nat → Nat → Nat) (s : RccBank) :
    RccBank :=
  let r := hal_system_speed_get_pll c s
  let s := { r.2 with pll_working := r.1 }
  -- New value for PLLN
  let s := { s with pll_working := { s.pll_working with PLLN := 180 } }
  hal_system_speed_set_pll c hw s s.pll_working

/-- Embedding of `hal_system_speed_low`. -/
def hal_system_speed_low (c : RccConsts) (hw : Nat → Nat → Nat) (s : RccBank) :
    RccBank :=
  let r := hal_system_speed_get_pll c s
  let s := { r.2 with pll_working := r.1 }
  -- New value for PLLN
  let s := { s with pll_working := { s.pll_working with PLLN := 72 } }
  hal_system_speed_set_pll c hw s s.pll_working

/-! ## Sleep accounting -/

/-- What `hal_system_speed_sleep` does besides updating its counters, in the
order it happens. -/
inductive SleepEvent where
  | criticalSectionStart
  | readCycleCounter (value : Nat)
  | enterSleepMode
  | criticalSectionEnd
deriving DecidableEq

/-- The four file-scope accounting variables of `hal_system_speed.c`, together
with the number of reads of `DWT->CYCCNT` made so far and the event log. -/
structure CycleAccounting where
  cc_when_sleeping : Nat
  cc_when_woken : Nat
  cc_awake_time : Nat
  cc_asleep_time : Nat
  reads : Nat
  log : List SleepEvent
deriving DecidableEq

/-- The value of the 32-bit register `DWT->CYCCNT` at the read number `k`, for
a cycle clock `cyc` giving the cycle count at each read. -/
def DWT_CYCCNT (cyc : Nat → Nat) (k : Nat) : Nat := cyc k % 2 ^ 32

/-- Embedding of `hal_system_speed_sleep`. The critical-section macros and
`HAL_PWR_EnterSLEEPMode` are external; the log records where they run. -/
def hal_system_speed_sleep (cyc : Nat → Nat) (s : CycleAccounting) : CycleAccounting :=
  let s := { s with log := s.log ++ [SleepEvent.criticalSectionStart] }
  -- cc_awake_time += DWT->CYCCNT - cc_when_woken;
  let t := DWT_CYCCNT cyc s.reads
  let s := { s with
    cc_awake_time := add32 s.cc_awake_time (sub32 t s.cc_when_woken)
    reads := s.reads + 1
    log := s.log ++ [SleepEvent.readCycleCounter t] }
  -- cc_when_sleeping = DWT->CYCCNT;
  let t := DWT_CYCCNT cyc s.reads
  let s := { s with
    cc_when_sleeping := t
    reads := s.reads + 1
    log := s.log ++ [SleepEvent.readCycleCounter t] }
  -- Go to sleep. Wake on interrupt.
  let s := { s with log := s.log ++ [SleepEvent.enterSleepMode] }
  -- cc_asleep_time += DWT->CYCCNT - cc_when_sleeping;
  let t := DWT_CYCCNT cyc s.reads
  let s := { s with
    cc_asleep_time := add32 s.cc_asleep_time (sub32 t s.cc_when_sleeping)
    reads := s.reads + 1
    log := s.log ++ [SleepEvent.readCycleCounter t] }
  -- cc_when_woken = DWT->CYCCNT;
  let t := DWT_CYCCNT cyc s.reads
  let s := { s with
    cc_when_woken := t
    reads := s.reads + 1
    log := s.log ++ [SleepEvent.readCycleCounter t] }
  { s with log := s.log ++ [SleepEvent.criticalSectionEnd] }

/-! ## Predicates and auxiliary functions used by the statements -/

/-- A configuration whose five fields are all non-zero and legal for the
hardware: `M` in 1..63, `N` in 1..511, `P` one of 2, 4, 6, 8, `Q` in 1..15,
`R` in 1..7. -/
def SystemSpeed_RCC_PLL_t.Legal (p : SystemSpeed_RCC_PLL_t) : Prop :=
  1 ≤ p.PLLM ∧ p.PLLM ≤ 63 ∧ 1 ≤ p.PLLN ∧ p.PLLN ≤ 511 ∧
  (p.PLLP = 2 ∨ p.PLLP = 4 ∨ p.PLLP = 6 ∨ p.PLLP = 8) ∧
  1 ≤ p.PLLQ ∧ p.PLLQ ≤ 15 ∧ 1 ≤ p.PLLR ∧ p.PLLR ≤ 7

instance (p : SystemSpeed_RCC_PLL_t) : Decidable p.Legal := by
  unfold SystemSpeed_RCC_PLL_t.Legal; infer_instance

/-- One `if (field) { RCC->PLLCFGR = (RCC->PLLCFGR & ~MASK) | (val & MASK); }`
step of `hal_system_speed_set_pll`, as a function of the configuration word. -/
def mergeStep (b : Prop) [Decidable b] (mask val w : Nat) : Nat :=
  if b then (w &&& not32 mask) ||| (val &&& mask) else w

/-- The PLL configuration word after the five conditional merges of
`hal_system_speed_set_pll`, in source order `M, N, P, Q, R`. -/
def mergedWord (c : RccConsts) (pll : SystemSpeed_RCC_PLL_t) (w : Nat) : Nat :=
  mergeStep (pll.PLLR ≠ 0) c.RCC_PLLR_MASK (shl32 pll.PLLR c.RCC_PLLR_POS)
    (mergeStep (pll.PLLQ ≠ 0) c.RCC_PLLQ_MASK (shl32 pll.PLLQ c.RCC_PLLQ_POS)
      (mergeStep (pll.PLLP ≠ 0) c.RCC_PLLP_MASK (shl32 (PLLP_encode pll.PLLP) c.RCC_PLLP_POS)
        (mergeStep (pll.PLLN ≠ 0) c.RCC_PLLN_MASK (shl32 pll.PLLN c.RCC_PLLN_POS)
          (mergeStep (pll.PLLM ≠ 0) c.RCC_PLLM_MASK (shl32 pll.PLLM c.RCC_PLLM_POS) w))))

/-- A register bank used as a concrete input: `PLLCFGR` holds `M = 8`,
`N = 240`, `P` encoded as 3, `PLLSRC` set, `Q = 7`, `R = 2`; the PLL is the
clock source. -/
def exampleBank : RccBank where
  CR := 0x03000003
  CFGR := 0x0000940A
  PLLCFGR := 0x27433C08
  writes := []
  polls := 0
  coreClockUpdates := 0
  pll_working := ⟨0, 0, 0, 0, 0⟩

/-- The PLL configuration word built by placing the raw field values `m`, `n`,
`p`, `q`, `r` at the positions of the fields `M`, `N`, `P`, `Q`, `R`. -/
def fieldWord (c : RccConsts) (m n p q r : Nat) : Nat :=
  (m <<< c.RCC_PLLM_POS) ||| (n <<< c.RCC_PLLN_POS) ||| (p <<< c.RCC_PLLP_POS)
    ||| (q <<< c.RCC_PLLQ_POS) ||| (r <<< c.RCC_PLLR_POS)

/-- A cycle clock that passes `2 ^ 32` between its first and second read: the
cycle counts are 4294967000, 4294968000, 4294969000, ... -/
def wrappingClock (k : Nat) : Nat := 1000 * k + 4294967000

/-- An accounting state used as a concrete input: woken at cycle 4294966000,
with 5 awake and 6 asleep cycles accumulated. -/
def lateAccounting : CycleAccounting where
  cc_when_sleeping := 7
  cc_when_woken := 4294966000
  cc_awake_time := 5
  cc_asleep_time := 6
  reads := 0
  log := []

/-- A cycle clock that reads 0, 100, 100, 250 on its first four reads. -/
def scenarioClock (k : Nat) : Nat := [0, 100, 100, 250].getD k 0

/-- An accounting state used as a concrete input: woken at cycle 0, with 40
awake and 60 asleep cycles accumulated, and no counter read made yet. -/
def exampleAccounting : CycleAccounting where
  cc_when_sleeping := 0
  cc_when_woken := 0
  cc_awake_time := 40
  cc_asleep_time := 60
  reads := 0
  log := []

/-! ## Load sampling -/

/-- The two operands of the floating-point division made by
`hal_system_speed_get_load`: `(float)cc_awake_time` and
`(float)(cc_asleep_time + cc_awake_time)`, the latter a sum formed on
`uint32_t`. The floating-point result itself is not represented; `value` gives
the quotient times 100 in exact arithmetic. -/
structure LoadQuotient where
  numerator : Nat
  denominator : Nat
deriving DecidableEq

/-- The load `numerator / denominator * 100` in exact rational arithmetic, and
`none` when the denominator is zero (where the floating-point division yields
a NaN or an infinity). -/
def LoadQuotient.value (q : LoadQuotient) : Option ℚ :=
  if q.denominator = 0 then none
  else some ((q.numerator : ℚ) / (q.denominator : ℚ) * 100)

/-- Embedding of `hal_system_speed_get_load`: the operands of the returned
quotient, and the accounting state afterwards. -/
def hal_system_speed_get_load (s : CycleAccounting) : LoadQuotient × CycleAccounting :=
  ({ numerator := s.cc_awake_time
     denominator := add32 s.cc_asleep_time s.cc_awake_time },
   { s with cc_asleep_time := 0, cc_awake_time := 0 })

/-- The state after `k` consecutive `hal_system_speed_sleep` calls. -/
def sleepCalls (cyc : Nat → Nat) : Nat → CycleAccounting → CycleAccounting
  | 0, s => s
  | k + 1, s => hal_system_speed_sleep cyc (sleepCalls cyc k s)

/-- The cycles that pass, during `k` consecutive `hal_system_speed_sleep` calls
whose first counter read is the read number `r`, between the first and the
second read of each call and between its third and its fourth read. -/
def unaccountedCycles (cyc : Nat → Nat) (r : Nat) : Nat → Nat
  | 0 => 0
  | k + 1 => unaccountedCycles cyc r k
      + (cyc (r + 4 * k + 1) - cyc (r + 4 * k))
      + (cyc (r + 4 * k + 3) - cyc (r + 4 * k + 2))

/-- A cycle clock that advances by 10 cycles between reads: 0, 10, 20, 30, ... -/
def tenStepClock (k : Nat) : Nat := 10 * k

/-- An accounting state with both accumulators close to wrapping: 4294967295
awake cycles and 2 asleep cycles. -/
def saturatedAccounting : CycleAccounting where
  cc_when_sleeping := 0
  cc_when_woken := 0
  cc_awake_time := 0xFFFFFFFF
  cc_asleep_time := 2
  reads := 0
  log := []

/-! ## Flag set (`bitset.h`) -/

/-- Modelled from the spec: the macro `_BV` comes from `global.h`, which is not
among the sources. The flag-set utility sets, clears and tests individual bits
of a 16-bit value, the flags being numbered 1 to 16 and shifted by
`bitNumber - 1`; so `_BV(bit)` is the bit-value macro `(1 << (bit))`. -/
def _BV (bit : Nat) : Nat := 1 <<< bit

/-- The cast `(BitSet_t)x` of a non-negative `int` to `uint16_t`. -/
def toBitSet_t (x : Nat) : Nat := x % 2 ^ 16

/-- Embedding of `bitsetSet`: the pattern stored back through `bitPattern`.
The flag number is meant to be at least 1 (`bitNumber - 1` is the shift). -/
def bitsetSet (bitPattern bitNumber : Nat) : Nat :=
  bitPattern ||| toBitSet_t (_BV (bitNumber - 1))

/-- Embedding of `bitsetClear`: the pattern stored back through `bitPattern`.
The complement is taken on the 32-bit `int` and then cast to `uint16_t`. -/
def bitsetClear (bitPattern bitNumber : Nat) : Nat :=
  bitPattern &&& toBitSet_t (not32 (_BV (bitNumber - 1)))

/-- Embedding of `bitsetIsSet`. -/
def bitsetIsSet (bitPattern bitNumber : Nat) : Bool :=
  (bitPattern &&& toBitSet_t (_BV (bitNumber - 1))) != 0

/-! ## Write traces -/

/-- Replays a list of register writes from the register contents `cr`, `cfgr`
and checks every write to `PLLCFGR`: at that moment the clock-source selector
last written holds the internal-oscillator encoding (hence not the PLL one)
and the PLL-enable bit last written is clear. -/
def pllWritesSafe (c : RccConsts) : Nat → Nat → List (RccReg × Nat) → Prop
  | _, _, [] => True
  | _, cfgr, (RccReg.CR, v) :: ws => pllWritesSafe c v cfgr ws
  | cr, _, (RccReg.CFGR, v) :: ws => pllWritesSafe c cr v ws
  | cr, cfgr, (RccReg.PLLCFGR, _) :: ws =>
      cfgr &&& c.RCC_CFGR_SW = c.RCC_CFGR_SW_HSI ∧
      cfgr &&& c.RCC_CFGR_SW ≠ c.RCC_CFGR_SW_PLL ∧
      cr &&& c.RCC_CR_PLLON = 0 ∧
      pllWritesSafe c cr cfgr ws

/-- The writes to `PLLCFGR` made by the five conditional merges of
`hal_system_speed_set_pll`, in order, starting from the word `w`. -/
def mergeWrites (c : RccConsts) (pll : SystemSpeed_RCC_PLL_t) (w : Nat) :
    List (RccReg × Nat) :=
  let w1 := mergeStep (pll.PLLM ≠ 0) c.RCC_PLLM_MASK (shl32 pll.PLLM c.RCC_PLLM_POS) w
  let w2 := mergeStep (pll.PLLN ≠ 0) c.RCC_PLLN_MASK (shl32 pll.PLLN c.RCC_PLLN_POS) w1
  let w3 := mergeStep (pll.PLLP ≠ 0) c.RCC_PLLP_MASK
    (shl32 (PLLP_encode pll.PLLP) c.RCC_PLLP_POS) w2
  let w4 := mergeStep (pll.PLLQ ≠ 0) c.RCC_PLLQ_MASK (shl32 pll.PLLQ c.RCC_PLLQ_POS) w3
  let w5 := mergeStep (pll.PLLR ≠ 0) c.RCC_PLLR_MASK (shl32 pll.PLLR c.RCC_PLLR_POS) w4
  (if pll.PLLM ≠ 0 then [(RccReg.PLLCFGR, w1)] else [])
    ++ (if pll.PLLN ≠ 0 then [(RccReg.PLLCFGR, w2)] else [])
    ++ (if pll.PLLP ≠ 0 then [(RccReg.PLLCFGR, w3)] else [])
    ++ (if pll.PLLQ ≠ 0 then [(RccReg.PLLCFGR, w4)] else [])
    ++ (if pll.PLLR ≠ 0 then [(RccReg.PLLCFGR, w5)] else [])

/-- A register bank used as a concrete input: `N` reads 180 while `M`, `Q` and
`R` read 0. -/
def zeroFieldBank : RccBank where
  CR := 0x03000003
  CFGR := 0x0000940A
  PLLCFGR := 0x00002D00
  writes := []
  polls := 0
  coreClockUpdates := 0
  pll_working := ⟨0, 0, 0, 0, 0⟩

/-! ## Reads of `RCC->CR` that see the hardware-driven readiness bits -/

/-- The two readiness bits of `RCC->CR`, which the hardware drives. -/
def readyMask (c : RccConsts) : Nat := c.RCC_CR_HSIRDY ||| c.RCC_CR_PLLRDY

/-- The 32-bit value returned by the read number `k` of the volatile register
`RCC->CR` when software last wrote `cr`: the bits other than the readiness bits
as last written, the readiness bits as the hardware behaviour `hw` drives them
at that read. -/
def crValue (c : RccConsts) (hw : Nat → Nat → Nat) (k cr : Nat) : Nat :=
  (cr &&& not32 (readyMask c)) ||| ((hw k cr &&& readyMask c) % 2 ^ 32)

/-- The statements `timeout = 0xFFFF; while (!ready() && timeout--);` where each
poll reads `RCC->CR` through `crValue`. -/
def RccBank.waitReadyHw (s : RccBank) (c : RccConsts) (hw : Nat → Nat → Nat)
    (ready : Nat → Bool) : RccBank :=
  { s with polls := (spinWait (fun k => ready (crValue c hw k s.CR)) 0xFFFF s.polls).2 }

/-- Embedding of `hal_system_speed_set_pll` in which every read of `RCC->CR`,
in the three read-modify-writes (`|=`, `&=`) as well as in the polls, goes
through `crValue`, so that a read-modify-write writes back the readiness bits
it has read. The field `polls` counts every read of `RCC->CR` here. `RCC->CFGR`
and `RCC->PLLCFGR` are read back as written. -/
def hal_system_speed_set_pll_hw (c : RccConsts) (hw : Nat → Nat → Nat) (s : RccBank)
    (pll_settings : SystemSpeed_RCC_PLL_t) : RccBank :=
  -- Read the existing PLL registers
  let tmp := (hal_system_speed_get_pll c s).1
  let s := (hal_system_speed_get_pll c s).2
  if pll_settings = tmp then
    s
  else
    -- Enable the HSI
    let s := { s with polls := s.polls + 1 }.writeCR
      (crValue c hw s.polls s.CR ||| c.RCC_CR_HSION)
    -- Ensure the HSI is ready
    let s := s.waitReadyHw c hw (hal_system_speed_hsi_ready c)
    -- Use the HSI as main clock
    let s := s.writeCFGR ((s.CFGR &&& not32 c.RCC_CFGR_SW) ||| c.RCC_CFGR_SW_HSI)
    -- Disable the PLL
    let s := { s with polls := s.polls + 1 }.writeCR
      (crValue c hw s.polls s.CR &&& not32 c.RCC_CR_PLLON)
    -- Set PLL settings from structure
    let s := if pll_settings.PLLM ≠ 0 then
        s.writePLLCFGR ((s.PLLCFGR &&& not32 c.RCC_PLLM_MASK)
          ||| (shl32 pll_settings.PLLM c.RCC_PLLM_POS &&& c.RCC_PLLM_MASK))
      else s
    let s := if pll_settings.PLLN ≠ 0 then
        s.writePLLCFGR ((s.PLLCFGR &&& not32 c.RCC_PLLN_MASK)
          ||| (shl32 pll_settings.PLLN c.RCC_PLLN_POS &&& c.RCC_PLLN_MASK))
      else s
    let s := if pll_settings.PLLP ≠ 0 then
        s.writePLLCFGR ((s.PLLCFGR &&& not32 c.RCC_PLLP_MASK)
          ||| (shl32 (PLLP_encode pll_settings.PLLP) c.RCC_PLLP_POS &&& c.RCC_PLLP_MASK))
      else s
    let s := if pll_settings.PLLQ ≠ 0 then
        s.writePLLCFGR ((s.PLLCFGR &&& not32 c.RCC_PLLQ_MASK)
          ||| (shl32 pll_settings.PLLQ c.RCC_PLLQ_POS &&& c.RCC_PLLQ_MASK))
      else s
    let s := if pll_settings.PLLR ≠ 0 then
        s.writePLLCFGR ((s.PLLCFGR &&& not32 c.RCC_PLLR_MASK)
          ||| (shl32 pll_settings.PLLR c.RCC_PLLR_POS &&& c.RCC_PLLR_MASK))
      else s
    -- Enable the PLL
    let s := { s with polls := s.polls + 1 }.writeCR
      (crValue c hw s.polls s.CR ||| c.RCC_CR_PLLON)
    -- Blocking wait until PLL is ready
    let s := s.waitReadyHw c hw (hal_system_speed_pll_ready c)
    -- Enable PLL as main clock
    let s := s.writeCFGR ((s.CFGR &&& not32 c.RCC_CFGR_SW) ||| c.RCC_CFGR_SW_PLL)
    -- Update system core clock variable
    s.SystemCoreClockUpdate

/-- A register write with the readiness bits of a value written to `RCC->CR`
masked out; writes to the other registers are kept as they are. -/
def maskReady (c : RccConsts) (w : RccReg × Nat) : RccReg × Nat :=
  match w.1 with
  | RccReg.CR => (RccReg.CR, w.2 &&& not32 (readyMask c))
  | _ => w

/-- A readiness behaviour in which both readiness bits read as set at every
read of `RCC->CR`. -/
def readyAtOnce (_k _cr : Nat) : Nat := 0xFFFFFFFF

/-- A readiness behaviour in which the oscillator always reads as ready and the
PLL reads as not ready during the first five reads of `RCC->CR`, and as ready
from then on. -/
def pllReadyLate (k _cr : Nat) : Nat := if k < 5 then 0x00000002 else 0x02000002

/-- The value that `RCC->CR |= RCC_CR_HSION` writes in
`hal_system_speed_set_pll_hw`. -/
def crAfterHsiOn (c : RccConsts) (hw : Nat → Nat → Nat) (s : RccBank) : Nat :=
  crValue c hw s.polls s.CR ||| c.RCC_CR_HSION

/-- The number of reads of `RCC->CR` made in `hal_system_speed_set_pll_hw` when
the oscillator wait is over. -/
def readsAfterHsiWait (c : RccConsts) (hw : Nat → Nat → Nat) (s : RccBank) : Nat :=
  (spinWait (fun k => hal_system_speed_hsi_ready c (crValue c hw k (crAfterHsiOn c hw s)))
    0xFFFF (s.polls + 1)).2

/-- The value that `RCC->CR &= ~RCC_CR_PLLON` writes in
`hal_system_speed_set_pll_hw`. -/
def crAfterPllOff (c : RccConsts) (hw : Nat → Nat → Nat) (s : RccBank) : Nat :=
  crValue c hw (readsAfterHsiWait c hw s) (crAfterHsiOn c hw s) &&& not32 c.RCC_CR_PLLON

/-- The value that `RCC->CR |= RCC_CR_PLLON` writes in
`hal_system_speed_set_pll_hw`. -/
def crAfterPllOn (c : RccConsts) (hw : Nat → Nat → Nat) (s : RccBank) : Nat :=
  crValue c hw (readsAfterHsiWait c hw s + 1) (crAfterPllOff c hw s) ||| c.RCC_CR_PLLON

/-! ## Bit-level lemmas -/

theorem testBit_fieldMask (pos w i : Nat) :
    (fieldMask pos w).testBit i = (decide (pos ≤ i) && decide (i < pos + w)) := by
  unfold fieldMask
  rw [Nat.testBit_shiftLeft, Nat.testBit_two_pow_sub_one]
  by_cases h : pos ≤ i
  · simp [h]; omega
  · simp [h]

theorem testBit_not32 (a i : Nat) :
    (not32 a).testBit i = (decide (i < 32) ^^ a.testBit i) := by
  unfold not32
  rw [Nat.testBit_xor, Nat.testBit_two_pow_sub_one]

theorem testBit_shl32 (a n i : Nat) :
    (shl32 a n).testBit i = (decide (i < 32) && (decide (n ≤ i) && a.testBit (i - n))) := by
  unfold shl32
  rw [Nat.testBit_mod_two_pow, Nat.testBit_shiftLeft]

theorem rangesDisjoint_symm {a wa b wb : Nat} (h : rangesDisjoint a wa b wb) :
    rangesDisjoint b wb a wa := by
  unfold rangesDisjoint at *; omega

/-- A field read is below `2 ^ width`. -/
theorem field_read_lt (w p n : Nat) : (w &&& fieldMask p n) >>> p < 2 ^ n := by
  apply Nat.lt_pow_two_of_testBit
  intro i hi
  simp only [Nat.testBit_shiftRight, Nat.testBit_and, testBit_fieldMask]
  have : ¬ (p + i < p + n) := by omega
  simp [this]

/-- Reading back a field that was just merged gives the merged value, cut to
the field width. -/
theorem field_read_written (w v p n : Nat) (hfit : p + n ≤ 32) :
    (((w &&& not32 (fieldMask p n)) ||| (shl32 v p &&& fieldMask p n)) &&& fieldMask p n) >>> p
      = v % 2 ^ n := by
  apply Nat.eq_of_testBit_eq
  intro i
  simp only [Nat.testBit_shiftRight, Nat.testBit_and, Nat.testBit_or, testBit_not32,
    testBit_fieldMask, testBit_shl32, Nat.testBit_mod_two_pow]
  by_cases hi : i < n
  · have h1 : p + i < 32 := by omega
    have h2 : p + i < p + n := by omega
    simp [hi, h1, h2]
  · have h2 : ¬ (p + i < p + n) := by omega
    simp [hi, h2]

/-- Merging one field does not change what is read from a disjoint field. -/
theorem field_read_other (w val p n q m : Nat) (hfit : q + m ≤ 32)
    (hd : rangesDisjoint p n q m) :
    (((w &&& not32 (fieldMask p n)) ||| (val &&& fieldMask p n)) &&& fieldMask q m) >>> q
      = (w &&& fieldMask q m) >>> q := by
  apply Nat.eq_of_testBit_eq
  intro i
  simp only [Nat.testBit_shiftRight, Nat.testBit_and, Nat.testBit_or, testBit_not32,
    testBit_fieldMask]
  unfold rangesDisjoint at hd
  by_cases hi : i < m
  · have h1 : q + i < 32 := by omega
    by_cases h3 : p ≤ q + i
    · have h4 : ¬ (q + i < p + n) := by omega
      simp [hi, h1, h3, h4]
    · simp [hi, h1, h3]
  · have h2 : ¬ (q + i < q + m) := by omega
    simp [hi, h2]

/-- Merging a value under a mask leaves every bit of the word outside the mask
as it was. -/
theorem field_write_frame (w val mask i : Nat) (h32 : i < 32)
    (hi : mask.testBit i = false) :
    ((w &&& not32 mask) ||| (val &&& mask)).testBit i = w.testBit i := by
  simp only [Nat.testBit_and, Nat.testBit_or, testBit_not32]
  rw [hi]
  simp [h32]

/-! ## The five conditional merges of `hal_system_speed_set_pll` -/

theorem mergeStep_read_same (b : Prop) [Decidable b] (w v p n : Nat) (hfit : p + n ≤ 32) :
    (mergeStep b (fieldMask p n) (shl32 v p) w &&& fieldMask p n) >>> p
      = if b then v % 2 ^ n else (w &&& fieldMask p n) >>> p := by
  unfold mergeStep
  split
  · exact field_read_written w v p n hfit
  · rfl

theorem mergeStep_read_other (b : Prop) [Decidable b] (w val p n q m : Nat)
    (hfit : q + m ≤ 32) (hd : rangesDisjoint p n q m) :
    (mergeStep b (fieldMask p n) val w &&& fieldMask q m) >>> q
      = (w &&& fieldMask q m) >>> q := by
  unfold mergeStep
  split
  · exact field_read_other w val p n q m hfit hd
  · rfl

theorem mergeStep_frame (b : Prop) [Decidable b] (w val mask i : Nat) (h32 : i < 32)
    (hi : b → mask.testBit i = false) :
    (mergeStep b mask val w).testBit i = w.testBit i := by
  unfold mergeStep
  split
  · next hb => exact field_write_frame w val mask i h32 (hi hb)
  · rfl

/-! ## What `hal_system_speed_set_pll` leaves in each register -/

theorem set_pll_same (c : RccConsts) (hw : Nat → Nat → Nat) (s : RccBank)
    (pll : SystemSpeed_RCC_PLL_t) (h : pll = (hal_system_speed_get_pll c s).1) :
    hal_system_speed_set_pll c hw s pll = s := by
  unfold hal_system_speed_set_pll
  simp only [h, if_true]
  rfl

theorem set_pll_PLLCFGR (c : RccConsts) (hw : Nat → Nat → Nat) (s : RccBank)
    (pll : SystemSpeed_RCC_PLL_t) (h : pll ≠ (hal_system_speed_get_pll c s).1) :
    (hal_system_speed_set_pll c hw s pll).PLLCFGR = mergedWord c pll s.PLLCFGR := by
  unfold hal_system_speed_set_pll mergedWord mergeStep
  simp only [h, if_false]
  simp only [hal_system_speed_get_pll, RccBank.writeCR, RccBank.writeCFGR, RccBank.waitReady,
    RccBank.writePLLCFGR, RccBank.SystemCoreClockUpdate]
  split_ifs <;> rfl
theorem mergedWord_M (c : RccConsts) (hc : c.PllFieldsOK) (pll : SystemSpeed_RCC_PLL_t)
    (w : Nat) :
    (mergedWord c pll w &&& c.RCC_PLLM_MASK) >>> c.RCC_PLLM_POS
      = if pll.PLLM ≠ 0 then pll.PLLM % 2 ^ 6
        else (w &&& c.RCC_PLLM_MASK) >>> c.RCC_PLLM_POS := by
  unfold mergedWord
  rw [hc.maskM, hc.maskN, hc.maskP, hc.maskQ, hc.maskR]
  rw [mergeStep_read_other _ _ _ _ _ _ _ hc.fitM (rangesDisjoint_symm hc.disjMR),
    mergeStep_read_other _ _ _ _ _ _ _ hc.fitM (rangesDisjoint_symm hc.disjMQ),
    mergeStep_read_other _ _ _ _ _ _ _ hc.fitM (rangesDisjoint_symm hc.disjMP),
    mergeStep_read_other _ _ _ _ _ _ _ hc.fitM (rangesDisjoint_symm hc.disjMN),
    mergeStep_read_same _ _ _ _ _ hc.fitM]

theorem mergedWord_N (c : RccConsts) (hc : c.PllFieldsOK) (pll : SystemSpeed_RCC_PLL_t)
    (w : Nat) :
    (mergedWord c pll w &&& c.RCC_PLLN_MASK) >>> c.RCC_PLLN_POS
      = if pll.PLLN ≠ 0 then pll.PLLN % 2 ^ 9
        else (w &&& c.RCC_PLLN_MASK) >>> c.RCC_PLLN_POS := by
  unfold mergedWord
  rw [hc.maskM, hc.maskN, hc.maskP, hc.maskQ, hc.maskR]
  rw [mergeStep_read_other _ _ _ _ _ _ _ hc.fitN (rangesDisjoint_symm hc.disjNR),
    mergeStep_read_other _ _ _ _ _ _ _ hc.fitN (rangesDisjoint_symm hc.disjNQ),
    mergeStep_read_other _ _ _ _ _ _ _ hc.fitN (rangesDisjoint_symm hc.disjNP),
    mergeStep_read_same _ _ _ _ _ hc.fitN,
    mergeStep_read_other _ _ _ _ _ _ _ hc.fitN hc.disjMN]

theorem mergedWord_P (c : RccConsts) (hc : c.PllFieldsOK) (pll : SystemSpeed_RCC_PLL_t)
    (w : Nat) :
    (mergedWord c pll w &&& c.RCC_PLLP_MASK) >>> c.RCC_PLLP_POS
      = if pll.PLLP ≠ 0 then PLLP_encode pll.PLLP % 2 ^ 2
        else (w &&& c.RCC_PLLP_MASK) >>> c.RCC_PLLP_POS := by
  unfold mergedWord
  rw [hc.maskM, hc.maskN, hc.maskP, hc.maskQ, hc.maskR]
  rw [mergeStep_read_other _ _ _ _ _ _ _ hc.fitP (rangesDisjoint_symm hc.disjPR),
    mergeStep_read_other _ _ _ _ _ _ _ hc.fitP (rangesDisjoint_symm hc.disjPQ),
    mergeStep_read_same _ _ _ _ _ hc.fitP,
    mergeStep_read_other _ _ _ _ _ _ _ hc.fitP hc.disjNP,
    mergeStep_read_other _ _ _ _ _ _ _ hc.fitP hc.disjMP]

theorem mergedWord_Q (c : RccConsts) (hc : c.PllFieldsOK) (pll : SystemSpeed_RCC_PLL_t)
    (w : Nat) :
    (mergedWord c pll w &&& c.RCC_PLLQ_MASK) >>> c.RCC_PLLQ_POS
      = if pll.PLLQ ≠ 0 then pll.PLLQ % 2 ^ 4
        else (w &&& c.RCC_PLLQ_MASK) >>> c.RCC_PLLQ_POS := by
  unfold mergedWord
  rw [hc.maskM, hc.maskN, hc.maskP, hc.maskQ, hc.maskR]
  rw [mergeStep_read_other _ _ _ _ _ _ _ hc.fitQ (rangesDisjoint_symm hc.disjQR),
    mergeStep_read_same _ _ _ _ _ hc.fitQ,
    mergeStep_read_other _ _ _ _ _ _ _ hc.fitQ hc.disjPQ,
    mergeStep_read_other _ _ _ _ _ _ _ hc.fitQ hc.disjNQ,
    mergeStep_read_other _ _ _ _ _ _ _ hc.fitQ hc.disjMQ]

theorem mergedWord_R (c : RccConsts) (hc : c.PllFieldsOK) (pll : SystemSpeed_RCC_PLL_t)
    (w : Nat) :
    (mergedWord c pll w &&& c.RCC_PLLR_MASK) >>> c.RCC_PLLR_POS
      = if pll.PLLR ≠ 0 then pll.PLLR % 2 ^ 3
        else (w &&& c.RCC_PLLR_MASK) >>> c.RCC_PLLR_POS := by
  unfold mergedWord
  rw [hc.maskM, hc.maskN, hc.maskP, hc.maskQ, hc.maskR]
  rw [mergeStep_read_same _ _ _ _ _ hc.fitR,
    mergeStep_read_other _ _ _ _ _ _ _ hc.fitR hc.disjQR,
    mergeStep_read_other _ _ _ _ _ _ _ hc.fitR hc.disjPR,
    mergeStep_read_other _ _ _ _ _ _ _ hc.fitR hc.disjNR,
    mergeStep_read_other _ _ _ _ _ _ _ hc.fitR hc.disjMR]

theorem PLLP_roundtrip (e : Nat) (he : e < 4) :
    PLLP_decode e ≠ 0 ∧ PLLP_encode (PLLP_decode e) % 2 ^ 2 = e := by
  interval_cases e <;> decide

theorem stm32f446_PllFieldsOK : stm32f446.PllFieldsOK := by
  constructor <;> decide

theorem stm32f446_ClockCtlOK : stm32f446.ClockCtlOK where
  hsion := ⟨0, by decide, by decide⟩
  pllon := ⟨24, by decide, by decide⟩
  hsion_ne_pllon := by decide
  sw := ⟨0, by decide, by decide⟩
  sw_hsi := by decide
  sw_pll := by decide


theorem set_pll_CR (c : RccConsts) (hw : Nat → Nat → Nat) (s : RccBank)
    (pll : SystemSpeed_RCC_PLL_t) (h : pll ≠ (hal_system_speed_get_pll c s).1) :
    (hal_system_speed_set_pll c hw s pll).CR
      = ((s.CR ||| c.RCC_CR_HSION) &&& not32 c.RCC_CR_PLLON) ||| c.RCC_CR_PLLON := by
  unfold hal_system_speed_set_pll
  simp only [h, if_false]
  simp only [hal_system_speed_get_pll, RccBank.writeCR, RccBank.writeCFGR, RccBank.waitReady,
    RccBank.writePLLCFGR, RccBank.SystemCoreClockUpdate]
  split_ifs <;> rfl

theorem set_pll_CFGR (c : RccConsts) (hw : Nat → Nat → Nat) (s : RccBank)
    (pll : SystemSpeed_RCC_PLL_t) (h : pll ≠ (hal_system_speed_get_pll c s).1) :
    (hal_system_speed_set_pll c hw s pll).CFGR
      = ((((s.CFGR &&& not32 c.RCC_CFGR_SW) ||| c.RCC_CFGR_SW_HSI) &&& not32 c.RCC_CFGR_SW)
          ||| c.RCC_CFGR_SW_PLL) := by
  unfold hal_system_speed_set_pll
  simp only [h, if_false]
  simp only [hal_system_speed_get_pll, RccBank.writeCR, RccBank.writeCFGR, RccBank.waitReady,
    RccBank.writePLLCFGR, RccBank.SystemCoreClockUpdate]
  split_ifs <;> rfl

/-- The PLL configuration word after any call is the merged word, or the old
word when the call short-circuits. -/
theorem set_pll_frame (c : RccConsts) (hw : Nat → Nat → Nat) (s : RccBank)
    (pll : SystemSpeed_RCC_PLL_t) (i : Nat) (h32 : i < 32)
    (hM : pll.PLLM ≠ 0 → c.RCC_PLLM_MASK.testBit i = false)
    (hN : pll.PLLN ≠ 0 → c.RCC_PLLN_MASK.testBit i = false)
    (hP : pll.PLLP ≠ 0 → c.RCC_PLLP_MASK.testBit i = false)
    (hQ : pll.PLLQ ≠ 0 → c.RCC_PLLQ_MASK.testBit i = false)
    (hR : pll.PLLR ≠ 0 → c.RCC_PLLR_MASK.testBit i = false) :
    (hal_system_speed_set_pll c hw s pll).PLLCFGR.testBit i = s.PLLCFGR.testBit i := by
  by_cases h : pll = (hal_system_speed_get_pll c s).1
  · rw [set_pll_same c hw s pll h]
  · rw [set_pll_PLLCFGR c hw s pll h]
    unfold mergedWord
    rw [mergeStep_frame _ _ _ _ i h32 hR, mergeStep_frame _ _ _ _ i h32 hQ,
      mergeStep_frame _ _ _ _ i h32 hP, mergeStep_frame _ _ _ _ i h32 hN,
      mergeStep_frame _ _ _ _ i h32 hM]

/-- The configuration read back after a call that did not short-circuit: each
non-zero field of the request cut to its width, each zero field as before. -/
theorem get_set_fields (c : RccConsts) (hc : c.PllFieldsOK) (hw : Nat → Nat → Nat)
    (s : RccBank) (pll : SystemSpeed_RCC_PLL_t)
    (h : pll ≠ (hal_system_speed_get_pll c s).1) :
    (hal_system_speed_get_pll c (hal_system_speed_set_pll c hw s pll)).1 =
      { PLLM := if pll.PLLM ≠ 0 then pll.PLLM % 2 ^ 6
          else (hal_system_speed_get_pll c s).1.PLLM
        PLLN := if pll.PLLN ≠ 0 then pll.PLLN % 2 ^ 9
          else (hal_system_speed_get_pll c s).1.PLLN
        PLLP := if pll.PLLP ≠ 0 then PLLP_decode (PLLP_encode pll.PLLP % 2 ^ 2)
          else (hal_system_speed_get_pll c s).1.PLLP
        PLLQ := if pll.PLLQ ≠ 0 then pll.PLLQ % 2 ^ 4
          else (hal_system_speed_get_pll c s).1.PLLQ
        PLLR := if pll.PLLR ≠ 0 then pll.PLLR % 2 ^ 3
          else (hal_system_speed_get_pll c s).1.PLLR } := by
  simp only [hal_system_speed_get_pll, set_pll_PLLCFGR c hw s pll h, mergedWord_M c hc,
    mergedWord_N c hc, mergedWord_P c hc, mergedWord_Q c hc, mergedWord_R c hc]
  congr 1
  split <;> rfl

theorem get_set_legal (c : RccConsts) (hc : c.PllFieldsOK) (hw : Nat → Nat → Nat)
    (s : RccBank) (pll : SystemSpeed_RCC_PLL_t) (hl : pll.Legal) :
    (hal_system_speed_get_pll c (hal_system_speed_set_pll c hw s pll)).1 = pll := by
  by_cases h : pll = (hal_system_speed_get_pll c s).1
  · rw [set_pll_same c hw s pll h]; exact h.symm
  · obtain ⟨hM1, hM2, hN1, hN2, hP, hQ1, hQ2, hR1, hR2⟩ := hl
    have hM0 : pll.PLLM ≠ 0 := by omega
    have hN0 : pll.PLLN ≠ 0 := by omega
    have hP0 : pll.PLLP ≠ 0 := by omega
    have hQ0 : pll.PLLQ ≠ 0 := by omega
    have hR0 : pll.PLLR ≠ 0 := by omega
    have hPe : PLLP_decode (PLLP_encode pll.PLLP % 2 ^ 2) = pll.PLLP := by
      rcases hP with h2 | h2 | h2 | h2 <;> rw [h2] <;> decide
    simp only [hal_system_speed_get_pll, set_pll_PLLCFGR c hw s pll h, mergedWord_M c hc,
      mergedWord_N c hc, mergedWord_P c hc, mergedWord_Q c hc, mergedWord_R c hc,
      if_pos hM0, if_pos hN0, if_pos hP0, if_pos hQ0, if_pos hR0, hPe]
    cases pll
    simp only [SystemSpeed_RCC_PLL_t.mk.injEq] at *
    refine ⟨?_, ?_, trivial, ?_, ?_⟩ <;> omega

/-- A preset call is a `set_pll` call with the current configuration in which
`N` is replaced, and it reads back exactly that configuration. -/
theorem get_set_preset (c : RccConsts) (hc : c.PllFieldsOK) (hw : Nat → Nat → Nat)
    (s : RccBank) (n : Nat) (hn0 : n ≠ 0) (hn : n < 2 ^ 9) :
    (hal_system_speed_get_pll c
        (hal_system_speed_set_pll c hw
          { s with pll_working := { (hal_system_speed_get_pll c s).1 with PLLN := n } }
          { (hal_system_speed_get_pll c s).1 with PLLN := n })).1
      = { (hal_system_speed_get_pll c s).1 with PLLN := n } := by
  by_cases h : { (hal_system_speed_get_pll c s).1 with PLLN := n }
      = (hal_system_speed_get_pll c
          { s with pll_working := { (hal_system_speed_get_pll c s).1 with PLLN := n } }).1
  · rw [set_pll_same c hw _ _ h]; exact h.symm
  · rw [get_set_fields c hc hw _ _ h]
    have hP := PLLP_roundtrip ((s.PLLCFGR &&& c.RCC_PLLP_MASK) >>> c.RCC_PLLP_POS)
      (by rw [hc.maskP]; exact field_read_lt _ _ _)
    have hM := field_read_lt s.PLLCFGR c.RCC_PLLM_POS 6
    have hQ := field_read_lt s.PLLCFGR c.RCC_PLLQ_POS 4
    have hR := field_read_lt s.PLLCFGR c.RCC_PLLR_POS 3
    rw [← hc.maskM] at hM
    rw [← hc.maskQ] at hQ
    rw [← hc.maskR] at hR
    simp only [hal_system_speed_get_pll, hn0, ne_eq, not_false_eq_true, if_true,
      Nat.mod_eq_of_lt hn, hP.2, if_pos hP.1, Nat.mod_eq_of_lt hM, Nat.mod_eq_of_lt hQ,
      Nat.mod_eq_of_lt hR, ite_self]

/-! ## The claims -/

/-- C1. Field round trip: for every register bank, every readiness behaviour
and every configuration `pll` whose five fields are non-zero and legal, with the
five fields laid out in disjoint bit ranges of widths 6/9/2/4/3,
`hal_system_speed_get_pll` run after `hal_system_speed_set_pll pll` returns
exactly `pll`. -/
theorem set_then_get_roundtrip (c : RccConsts) (hc : c.PllFieldsOK)
    (hw : Nat → Nat → Nat) (s : RccBank) (pll : SystemSpeed_RCC_PLL_t) (hl : pll.Legal) :
    (hal_system_speed_get_pll c (hal_system_speed_set_pll c hw s pll)).1 = pll :=
  get_set_legal c hc hw s pll hl

theorem set_then_get_roundtrip_witness :
    (hal_system_speed_get_pll stm32f446
      (hal_system_speed_set_pll stm32f446 (fun _ cr => cr) exampleBank ⟨4, 72, 4, 3, 5⟩)).1
      = ⟨4, 72, 4, 3, 5⟩ :=
  set_then_get_roundtrip stm32f446 stm32f446_PllFieldsOK (fun _ cr => cr) exampleBank
    ⟨4, 72, 4, 3, 5⟩ (by decide)

/-- C2. Short-circuit: when the request is field-wise equal to the configuration
read from the bank, `hal_system_speed_set_pll` writes nothing: the write log is
unchanged, the three registers keep their values, `SystemCoreClockUpdate` is not
called; the call in fact returns the bank it was given. -/
theorem set_pll_short_circuit (c : RccConsts) (hw : Nat → Nat → Nat) (s : RccBank)
    (desired : SystemSpeed_RCC_PLL_t) (h : desired = (hal_system_speed_get_pll c s).1) :
    (hal_system_speed_set_pll c hw s desired).writes = s.writes ∧
    (hal_system_speed_set_pll c hw s desired).CR = s.CR ∧
    (hal_system_speed_set_pll c hw s desired).CFGR = s.CFGR ∧
    (hal_system_speed_set_pll c hw s desired).PLLCFGR = s.PLLCFGR ∧
    (hal_system_speed_set_pll c hw s desired).coreClockUpdates = s.coreClockUpdates ∧
    hal_system_speed_set_pll c hw s desired = s := by
  rw [set_pll_same c hw s desired h]
  exact ⟨rfl, rfl, rfl, rfl, rfl, rfl⟩

theorem set_pll_short_circuit_witness :
    (hal_system_speed_set_pll stm32f446 (fun _ cr => cr) exampleBank ⟨8, 240, 8, 7, 2⟩).writes
      = exampleBank.writes :=
  (set_pll_short_circuit stm32f446 (fun _ cr => cr) exampleBank ⟨8, 240, 8, 7, 2⟩
    (by decide)).1

/-- C3, refuted as stated: on the example bank (whose `M` field holds 8) the
request `M = 0, N = 180, P = 2, Q = 7, R = 2` is written by the first call (9
register writes) and written again by the second call (9 more), because the
configuration read back has `M = 8`, not 0. -/
theorem set_pll_twice_writes_again :
    (hal_system_speed_set_pll stm32f446 (fun _ _ => 0xFFFFFFFF) exampleBank
        ⟨0, 180, 2, 7, 2⟩).writes.length = 9 ∧
    (hal_system_speed_set_pll stm32f446 (fun _ _ => 0xFFFFFFFF)
        (hal_system_speed_set_pll stm32f446 (fun _ _ => 0xFFFFFFFF) exampleBank
          ⟨0, 180, 2, 7, 2⟩)
        ⟨0, 180, 2, 7, 2⟩).writes.length = 18 := by
  decide

/-- C3, amended. Idempotence for legal configurations: when
`hal_system_speed_set_pll` is called twice in a row with the same configuration
whose five fields are non-zero and legal, the second call (under any readiness
behaviour) writes nothing; it returns the bank the first call left. -/
theorem set_pll_idempotent_legal (c : RccConsts) (hc : c.PllFieldsOK)
    (hw hw2 : Nat → Nat → Nat) (s : RccBank) (pll : SystemSpeed_RCC_PLL_t)
    (hl : pll.Legal) :
    (hal_system_speed_set_pll c hw2 (hal_system_speed_set_pll c hw s pll) pll).writes
      = (hal_system_speed_set_pll c hw s pll).writes ∧
    hal_system_speed_set_pll c hw2 (hal_system_speed_set_pll c hw s pll) pll
      = hal_system_speed_set_pll c hw s pll := by
  have h := set_pll_same c hw2 (hal_system_speed_set_pll c hw s pll) pll
    (get_set_legal c hc hw s pll hl).symm
  rw [h]
  exact ⟨rfl, rfl⟩

theorem set_pll_idempotent_legal_witness :
    (hal_system_speed_set_pll stm32f446 (fun _ _ => 0)
        (hal_system_speed_set_pll stm32f446 (fun _ cr => cr) exampleBank ⟨8, 180, 2, 7, 2⟩)
        ⟨8, 180, 2, 7, 2⟩).writes
      = (hal_system_speed_set_pll stm32f446 (fun _ cr => cr) exampleBank
          ⟨8, 180, 2, 7, 2⟩).writes :=
  (set_pll_idempotent_legal stm32f446 stm32f446_PllFieldsOK (fun _ cr => cr) (fun _ _ => 0)
    exampleBank ⟨8, 180, 2, 7, 2⟩ (by decide)).1

/-- C4. Preset correctness: for every register bank, after
`hal_system_speed_high` the configuration read back has `N = 180`, after
`hal_system_speed_low` it has `N = 72`, and in both cases `M`, `P`, `Q`, `R`
read back as `hal_system_speed_get_pll` returned them before the call. -/
theorem preset_sets_only_N (c : RccConsts) (hc : c.PllFieldsOK) (hw : Nat → Nat → Nat)
    (s : RccBank) :
    ((hal_system_speed_get_pll c (hal_system_speed_high c hw s)).1.PLLN = 180 ∧
      (hal_system_speed_get_pll c (hal_system_speed_high c hw s)).1.PLLM
        = (hal_system_speed_get_pll c s).1.PLLM ∧
      (hal_system_speed_get_pll c (hal_system_speed_high c hw s)).1.PLLP
        = (hal_system_speed_get_pll c s).1.PLLP ∧
      (hal_system_speed_get_pll c (hal_system_speed_high c hw s)).1.PLLQ
        = (hal_system_speed_get_pll c s).1.PLLQ ∧
      (hal_system_speed_get_pll c (hal_system_speed_high c hw s)).1.PLLR
        = (hal_system_speed_get_pll c s).1.PLLR) ∧
    ((hal_system_speed_get_pll c (hal_system_speed_low c hw s)).1.PLLN = 72 ∧
      (hal_system_speed_get_pll c (hal_system_speed_low c hw s)).1.PLLM
        = (hal_system_speed_get_pll c s).1.PLLM ∧
      (hal_system_speed_get_pll c (hal_system_speed_low c hw s)).1.PLLP
        = (hal_system_speed_get_pll c s).1.PLLP ∧
      (hal_system_speed_get_pll c (hal_system_speed_low c hw s)).1.PLLQ
        = (hal_system_speed_get_pll c s).1.PLLQ ∧
      (hal_system_speed_get_pll c (hal_system_speed_low c hw s)).1.PLLR
        = (hal_system_speed_get_pll c s).1.PLLR) := by
  have hhi : (hal_system_speed_get_pll c (hal_system_speed_high c hw s)).1
      = { (hal_system_speed_get_pll c s).1 with PLLN := 180 } :=
    get_set_preset c hc hw s 180 (by decide) (by decide)
  have hlo : (hal_system_speed_get_pll c (hal_system_speed_low c hw s)).1
      = { (hal_system_speed_get_pll c s).1 with PLLN := 72 } :=
    get_set_preset c hc hw s 72 (by decide) (by decide)
  rw [hhi, hlo]
  exact ⟨⟨rfl, rfl, rfl, rfl, rfl⟩, ⟨rfl, rfl, rfl, rfl, rfl⟩⟩

theorem preset_sets_only_N_witness :
    (hal_system_speed_get_pll stm32f446
      (hal_system_speed_high stm32f446 (fun _ cr => cr) exampleBank)).1.PLLN = 180 :=
  (preset_sets_only_N stm32f446 stm32f446_PllFieldsOK (fun _ cr => cr) exampleBank).1.1

/-- C5. Zero means leave unchanged, and a field write touches only its field:
for every bank and every request (of any values), after
`hal_system_speed_set_pll` every bit of the 32-bit PLL configuration word that
lies outside the masks of the fields whose requested value is non-zero is as
before; each field whose requested value is 0 reads back as before; bits that
belong to none of the five fields never change. -/
theorem set_pll_touches_only_requested_fields (c : RccConsts) (hc : c.PllFieldsOK)
    (hw : Nat → Nat → Nat) (s : RccBank) (desired : SystemSpeed_RCC_PLL_t) :
    (∀ i, i < 32 →
      (desired.PLLM ≠ 0 → c.RCC_PLLM_MASK.testBit i = false) →
      (desired.PLLN ≠ 0 → c.RCC_PLLN_MASK.testBit i = false) →
      (desired.PLLP ≠ 0 → c.RCC_PLLP_MASK.testBit i = false) →
      (desired.PLLQ ≠ 0 → c.RCC_PLLQ_MASK.testBit i = false) →
      (desired.PLLR ≠ 0 → c.RCC_PLLR_MASK.testBit i = false) →
      (hal_system_speed_set_pll c hw s desired).PLLCFGR.testBit i = s.PLLCFGR.testBit i) ∧
    (desired.PLLM = 0 →
      (hal_system_speed_get_pll c (hal_system_speed_set_pll c hw s desired)).1.PLLM
        = (hal_system_speed_get_pll c s).1.PLLM) ∧
    (desired.PLLN = 0 →
      (hal_system_speed_get_pll c (hal_system_speed_set_pll c hw s desired)).1.PLLN
        = (hal_system_speed_get_pll c s).1.PLLN) ∧
    (desired.PLLP = 0 →
      (hal_system_speed_get_pll c (hal_system_speed_set_pll c hw s desired)).1.PLLP
        = (hal_system_speed_get_pll c s).1.PLLP) ∧
    (desired.PLLQ = 0 →
      (hal_system_speed_get_pll c (hal_system_speed_set_pll c hw s desired)).1.PLLQ
        = (hal_system_speed_get_pll c s).1.PLLQ) ∧
    (desired.PLLR = 0 →
      (hal_system_speed_get_pll c (hal_system_speed_set_pll c hw s desired)).1.PLLR
        = (hal_system_speed_get_pll c s).1.PLLR) ∧
    (∀ i, i < 32 →
      c.RCC_PLLM_MASK.testBit i = false → c.RCC_PLLN_MASK.testBit i = false →
      c.RCC_PLLP_MASK.testBit i = false → c.RCC_PLLQ_MASK.testBit i = false →
      c.RCC_PLLR_MASK.testBit i = false →
      (hal_system_speed_set_pll c hw s desired).PLLCFGR.testBit i = s.PLLCFGR.testBit i) := by
  refine ⟨fun i h32 hM hN hP hQ hR => set_pll_frame c hw s desired i h32 hM hN hP hQ hR,
    ?_, ?_, ?_, ?_, ?_,
    fun i h32 hM hN hP hQ hR => set_pll_frame c hw s desired i h32 (fun _ => hM)
      (fun _ => hN) (fun _ => hP) (fun _ => hQ) (fun _ => hR)⟩
  all_goals
    intro h0
    by_cases h : desired = (hal_system_speed_get_pll c s).1
    · rw [set_pll_same c hw s desired h]
    · rw [get_set_fields c hc hw s desired h]
      simp [h0]

theorem set_pll_touches_only_requested_fields_witness :
    (hal_system_speed_get_pll stm32f446
      (hal_system_speed_set_pll stm32f446 (fun _ cr => cr) exampleBank ⟨0, 72, 0, 0, 0⟩)).1.PLLM
      = (hal_system_speed_get_pll stm32f446 exampleBank).1.PLLM :=
  (set_pll_touches_only_requested_fields stm32f446 stm32f446_PllFieldsOK (fun _ cr => cr)
    exampleBank ⟨0, 72, 0, 0, 0⟩).2.1 rfl

/-- C6. Completion guarantee: when the request differs from the current
configuration, after `hal_system_speed_set_pll` the clock-source-select field
holds the PLL encoding, every other bit of the 32-bit clock-source-select
register is as before the call, and the PLL-enable and oscillator-enable bits
of the clock-control register are set. -/
theorem set_pll_completion (c : RccConsts) (hc : c.ClockCtlOK) (hw : Nat → Nat → Nat)
    (s : RccBank) (desired : SystemSpeed_RCC_PLL_t)
    (h : desired ≠ (hal_system_speed_get_pll c s).1) :
    (hal_system_speed_set_pll c hw s desired).CFGR &&& c.RCC_CFGR_SW = c.RCC_CFGR_SW_PLL ∧
    (∀ i, i < 32 → c.RCC_CFGR_SW.testBit i = false →
      (hal_system_speed_set_pll c hw s desired).CFGR.testBit i = s.CFGR.testBit i) ∧
    (hal_system_speed_set_pll c hw s desired).CR &&& c.RCC_CR_PLLON = c.RCC_CR_PLLON ∧
    (hal_system_speed_set_pll c hw s desired).CR &&& c.RCC_CR_HSION = c.RCC_CR_HSION := by
  rw [set_pll_CFGR c hw s desired h, set_pll_CR c hw s desired h]
  obtain ⟨a, ha, hA⟩ := hc.hsion
  obtain ⟨b, hb, hB⟩ := hc.pllon
  obtain ⟨k, hk, hK⟩ := hc.sw
  have hab : a ≠ b := by
    intro hab
    exact hc.hsion_ne_pllon (by rw [hA, hB, hab])
  have hsw32 : ∀ i, c.RCC_CFGR_SW.testBit i = true → i < 32 := by
    intro i hi
    rw [hK, testBit_fieldMask] at hi
    simp at hi
    omega
  have hpll : ∀ i, c.RCC_CFGR_SW_PLL.testBit i
      = (c.RCC_CFGR_SW_PLL.testBit i && c.RCC_CFGR_SW.testBit i) := by
    intro i
    rw [← Nat.testBit_and, hc.sw_pll]
  have hhsi : ∀ i, c.RCC_CFGR_SW_HSI.testBit i
      = (c.RCC_CFGR_SW_HSI.testBit i && c.RCC_CFGR_SW.testBit i) := by
    intro i
    rw [← Nat.testBit_and, hc.sw_hsi]
  refine ⟨?_, ?_, ?_, ?_⟩
  · apply Nat.eq_of_testBit_eq
    intro i
    simp only [Nat.testBit_and, Nat.testBit_or, testBit_not32]
    cases hs : c.RCC_CFGR_SW.testBit i
    · rw [hpll i, hs]; simp
    · have := hsw32 i hs
      simp [this]
  · intro i h32 hs
    simp only [Nat.testBit_and, Nat.testBit_or, testBit_not32]
    rw [hpll i, hhsi i, hs]
    simp [h32]
  · apply Nat.eq_of_testBit_eq
    intro i
    simp only [Nat.testBit_and, Nat.testBit_or]
    cases c.RCC_CR_PLLON.testBit i <;> simp
  · apply Nat.eq_of_testBit_eq
    intro i
    simp only [Nat.testBit_and, Nat.testBit_or, testBit_not32, hA, hB, Nat.testBit_two_pow]
    by_cases hai : a = i
    · have hbi : ¬ b = i := by omega
      have : i < 32 := by omega
      simp [hai, hbi, this]
    · simp [hai]

theorem set_pll_completion_witness :
    (hal_system_speed_set_pll stm32f446 (fun _ _ => 0) exampleBank ⟨8, 180, 2, 7, 2⟩).CFGR
      &&& stm32f446.RCC_CFGR_SW = stm32f446.RCC_CFGR_SW_PLL :=
  (set_pll_completion stm32f446 stm32f446_ClockCtlOK (fun _ _ => 0) exampleBank
    ⟨8, 180, 2, 7, 2⟩ (by decide)).1

/-- C7. P-field bijection: with `PLLP_encode v = (v >> 1) - 1` (the write in
`hal_system_speed_set_pll`) and `PLLP_decode e = (e + 1) << 1` (the read in
`hal_system_speed_get_pll`), decoding an encoded legal divider gives it back,
encoding a decoded 2-bit value gives it back, and `PLLP_encode` is a bijection
from {2, 4, 6, 8} onto the 2-bit values. -/
theorem PLLP_encode_bijection :
    (∀ v, v = 2 ∨ v = 4 ∨ v = 6 ∨ v = 8 →
      PLLP_encode v < 4 ∧ PLLP_decode (PLLP_encode v) = v) ∧
    (∀ e, e < 4 →
      (PLLP_decode e = 2 ∨ PLLP_decode e = 4 ∨ PLLP_decode e = 6 ∨ PLLP_decode e = 8) ∧
      PLLP_encode (PLLP_decode e) = e) ∧
    Set.BijOn PLLP_encode {v | v = 2 ∨ v = 4 ∨ v = 6 ∨ v = 8} {e | e < 4} := by
  have h1 : ∀ v, v = 2 ∨ v = 4 ∨ v = 6 ∨ v = 8 →
      PLLP_encode v < 4 ∧ PLLP_decode (PLLP_encode v) = v := by
    intro v hv
    rcases hv with h | h | h | h <;> subst h <;> decide
  have h2 : ∀ e, e < 4 →
      (PLLP_decode e = 2 ∨ PLLP_decode e = 4 ∨ PLLP_decode e = 6 ∨ PLLP_decode e = 8) ∧
      PLLP_encode (PLLP_decode e) = e := by
    intro e he
    interval_cases e <;> decide
  refine ⟨h1, h2, ?_, ?_, ?_⟩
  · intro v hv
    exact (h1 v hv).1
  · intro v hv w hw hvw
    rw [← (h1 v hv).2, ← (h1 w hw).2, hvw]
  · intro e he
    exact ⟨PLLP_decode e, (h2 e he).1, (h2 e he).2⟩

theorem PLLP_encode_bijection_witness :
    PLLP_encode 6 < 4 ∧ PLLP_decode (PLLP_encode 6) = 6 :=
  PLLP_encode_bijection.1 6 (by decide)


/-! ## Reading a word assembled from raw field values -/

theorem read_or (a b mask q : Nat) :
    ((a ||| b) &&& mask) >>> q = ((a &&& mask) >>> q) ||| ((b &&& mask) >>> q) := by
  apply Nat.eq_of_testBit_eq
  intro i
  simp only [Nat.testBit_shiftRight, Nat.testBit_and, Nat.testBit_or]
  cases mask.testBit (q + i) <;> simp

theorem shl_read_self (v p n : Nat) (hv : v < 2 ^ n) :
    ((v <<< p) &&& fieldMask p n) >>> p = v := by
  apply Nat.eq_of_testBit_eq
  intro i
  simp only [Nat.testBit_shiftRight, Nat.testBit_and, Nat.testBit_shiftLeft,
    testBit_fieldMask]
  by_cases hi : i < n
  · have h2 : p + i < p + n := by omega
    simp [h2]
  · have h2 : ¬ (p + i < p + n) := by omega
    have : v.testBit i = false := by
      apply Nat.testBit_lt_two_pow
      calc v < 2 ^ n := hv
        _ ≤ 2 ^ i := Nat.pow_le_pow_right (by decide) (by omega)
    simp [h2, this]

theorem shl_read_other (v p n q m : Nat) (hv : v < 2 ^ n) (hd : rangesDisjoint p n q m) :
    ((v <<< p) &&& fieldMask q m) >>> q = 0 := by
  apply Nat.eq_of_testBit_eq
  intro i
  simp only [Nat.testBit_shiftRight, Nat.testBit_and, Nat.testBit_shiftLeft,
    testBit_fieldMask, Nat.zero_testBit]
  unfold rangesDisjoint at hd
  by_cases hi : i < m
  · by_cases h3 : p ≤ q + i
    · have : v.testBit (q + i - p) = false := by
        apply Nat.testBit_lt_two_pow
        calc v < 2 ^ n := hv
          _ ≤ 2 ^ (q + i - p) := Nat.pow_le_pow_right (by decide) (by omega)
      simp [this]
    · simp [h3]
  · have h2 : ¬ (q + i < q + m) := by omega
    simp [h2]

theorem PLLP_decode_small (p : Nat) (hp : p < 2 ^ 2) : PLLP_decode p = (p + 1) <<< 1 := by
  have hp4 : p < 4 := hp
  interval_cases p <;> decide

/-- C8. Configuration read-out: when the PLL configuration word is built by
placing raw field values `m` (6 bits), `n` (9 bits), `p` (2 bits), `q` (4 bits),
`r` (3 bits) at their field positions, `hal_system_speed_get_pll` returns
`M = m`, `N = n`, `P = (p + 1) << 1`, `Q = q`, `R = r` and leaves the bank as it
was; for the word built from `M = 8, N = 180, P-encoded = 3, Q = 7, R = 2` it
returns `M = 8, N = 180, P = 8, Q = 7, R = 2`. -/
theorem get_pll_reads_fields (c : RccConsts) (hc : c.PllFieldsOK) (s : RccBank) :
    (∀ m n p q r : Nat, m < 2 ^ 6 → n < 2 ^ 9 → p < 2 ^ 2 → q < 2 ^ 4 → r < 2 ^ 3 →
      s.PLLCFGR = fieldWord c m n p q r →
      (hal_system_speed_get_pll c s).1
        = { PLLM := m, PLLN := n, PLLP := (p + 1) <<< 1, PLLQ := q, PLLR := r } ∧
      (hal_system_speed_get_pll c s).2 = s) ∧
    (s.PLLCFGR = fieldWord c 8 180 3 7 2 →
      (hal_system_speed_get_pll c s).1
        = { PLLM := 8, PLLN := 180, PLLP := 8, PLLQ := 7, PLLR := 2 } ∧
      (hal_system_speed_get_pll c s).2 = s) := by
  have key : ∀ m n p q r : Nat, m < 2 ^ 6 → n < 2 ^ 9 → p < 2 ^ 2 → q < 2 ^ 4 → r < 2 ^ 3 →
      s.PLLCFGR = fieldWord c m n p q r →
      (hal_system_speed_get_pll c s).1
        = { PLLM := m, PLLN := n, PLLP := (p + 1) <<< 1, PLLQ := q, PLLR := r } ∧
      (hal_system_speed_get_pll c s).2 = s := by
    intro m n p q r hm hn hp hq hr hw
    refine ⟨?_, rfl⟩
    simp only [hal_system_speed_get_pll, hw, fieldWord, hc.maskM, hc.maskN, hc.maskP,
      hc.maskQ, hc.maskR, read_or,
      shl_read_self _ _ _ hm, shl_read_self _ _ _ hn, shl_read_self _ _ _ hp,
      shl_read_self _ _ _ hq, shl_read_self _ _ _ hr,
      shl_read_other _ _ _ _ _ hm hc.disjMN, shl_read_other _ _ _ _ _ hm hc.disjMP,
      shl_read_other _ _ _ _ _ hm hc.disjMQ, shl_read_other _ _ _ _ _ hm hc.disjMR,
      shl_read_other _ _ _ _ _ hn (rangesDisjoint_symm hc.disjMN),
      shl_read_other _ _ _ _ _ hn hc.disjNP, shl_read_other _ _ _ _ _ hn hc.disjNQ,
      shl_read_other _ _ _ _ _ hn hc.disjNR,
      shl_read_other _ _ _ _ _ hp (rangesDisjoint_symm hc.disjMP),
      shl_read_other _ _ _ _ _ hp (rangesDisjoint_symm hc.disjNP),
      shl_read_other _ _ _ _ _ hp hc.disjPQ, shl_read_other _ _ _ _ _ hp hc.disjPR,
      shl_read_other _ _ _ _ _ hq (rangesDisjoint_symm hc.disjMQ),
      shl_read_other _ _ _ _ _ hq (rangesDisjoint_symm hc.disjNQ),
      shl_read_other _ _ _ _ _ hq (rangesDisjoint_symm hc.disjPQ),
      shl_read_other _ _ _ _ _ hq hc.disjQR,
      shl_read_other _ _ _ _ _ hr (rangesDisjoint_symm hc.disjMR),
      shl_read_other _ _ _ _ _ hr (rangesDisjoint_symm hc.disjNR),
      shl_read_other _ _ _ _ _ hr (rangesDisjoint_symm hc.disjPR),
      shl_read_other _ _ _ _ _ hr (rangesDisjoint_symm hc.disjQR),
      Nat.or_zero, Nat.zero_or, PLLP_decode_small p hp]
  exact ⟨key, fun hw =>
    key 8 180 3 7 2 (by decide) (by decide) (by decide) (by decide) (by decide) hw⟩

theorem get_pll_reads_fields_witness :
    (hal_system_speed_get_pll stm32f446 { exampleBank with PLLCFGR := 0x27032D08 }).1
      = { PLLM := 8, PLLN := 180, PLLP := 8, PLLQ := 7, PLLR := 2 } :=
  ((get_pll_reads_fields stm32f446 stm32f446_PllFieldsOK
    { exampleBank with PLLCFGR := 0x27032D08 }).2 (by decide)).1

/-! ## Sleep accounting -/

/-- The four counters after one `hal_system_speed_sleep` call, in terms of the
four counter reads it makes. -/
theorem sleep_fields (cyc : Nat → Nat) (s : CycleAccounting) :
    (hal_system_speed_sleep cyc s).cc_awake_time
      = add32 s.cc_awake_time (sub32 (DWT_CYCCNT cyc s.reads) s.cc_when_woken) ∧
    (hal_system_speed_sleep cyc s).cc_when_sleeping = DWT_CYCCNT cyc (s.reads + 1) ∧
    (hal_system_speed_sleep cyc s).cc_asleep_time
      = add32 s.cc_asleep_time
          (sub32 (DWT_CYCCNT cyc (s.reads + 2)) (DWT_CYCCNT cyc (s.reads + 1))) ∧
    (hal_system_speed_sleep cyc s).cc_when_woken = DWT_CYCCNT cyc (s.reads + 3) :=
  ⟨rfl, rfl, rfl, rfl⟩

theorem add32_sub32_int (a t w : Nat) :
    ((add32 a (sub32 t w) : Nat) : Int) = ((a : Int) + ((t : Int) - (w : Int))) % 2 ^ 32 := by
  unfold add32 sub32
  omega

/-- C9. Sleep-transition accounting: for every accounting state and every four
successive cycle-counter readings `t1, t2, t3, t4` taken during one
`hal_system_speed_sleep` call, afterwards
`awake = (awake + (t1 - woke_at)) mod 2^32`, `sleep_started_at = t2`,
`asleep = (asleep + (t3 - t2)) mod 2^32` and `woke_at = t4`. -/
theorem sleep_transition_accounting (cyc : Nat → Nat) (s : CycleAccounting)
    (t1 t2 t3 t4 : Nat)
    (h1 : DWT_CYCCNT cyc s.reads = t1) (h2 : DWT_CYCCNT cyc (s.reads + 1) = t2)
    (h3 : DWT_CYCCNT cyc (s.reads + 2) = t3) (h4 : DWT_CYCCNT cyc (s.reads + 3) = t4) :
    ((hal_system_speed_sleep cyc s).cc_awake_time : Int)
      = ((s.cc_awake_time : Int) + ((t1 : Int) - (s.cc_when_woken : Int))) % 2 ^ 32 ∧
    (hal_system_speed_sleep cyc s).cc_when_sleeping = t2 ∧
    ((hal_system_speed_sleep cyc s).cc_asleep_time : Int)
      = ((s.cc_asleep_time : Int) + ((t3 : Int) - (t2 : Int))) % 2 ^ 32 ∧
    (hal_system_speed_sleep cyc s).cc_when_woken = t4 := by
  obtain ⟨ha, hs, hz, hk⟩ := sleep_fields cyc s
  rw [ha, hs, hz, hk, h1, h2, h3, h4]
  exact ⟨add32_sub32_int _ _ _, rfl, add32_sub32_int _ _ _, rfl⟩

theorem sleep_transition_accounting_witness :
    ((hal_system_speed_sleep wrappingClock lateAccounting).cc_awake_time : Int)
      = ((5 : Nat) + (((4294967000 : Nat) : Int) - ((4294966000 : Nat) : Int))) % 2 ^ 32 ∧
    (hal_system_speed_sleep wrappingClock lateAccounting).cc_when_sleeping = 704 ∧
    ((hal_system_speed_sleep wrappingClock lateAccounting).cc_asleep_time : Int)
      = ((6 : Nat) + (((1704 : Nat) : Int) - ((704 : Nat) : Int))) % 2 ^ 32 ∧
    (hal_system_speed_sleep wrappingClock lateAccounting).cc_when_woken = 2704 :=
  sleep_transition_accounting wrappingClock lateAccounting 4294967000 704 1704 2704
    (by decide) (by decide) (by decide) (by decide)

/-- C10, refuted as stated: with `woke_at = 0` and the counter reading 0, 100,
100, 250 on the four reads made inside one `hal_system_speed_sleep` call, the
awake time does not grow by 100 and the asleep time does not grow by 150 (the
call adds `0 - 0` and `100 - 100`). -/
theorem scenario_adds_not_100_150 :
    (hal_system_speed_sleep scenarioClock exampleAccounting).cc_awake_time
      ≠ exampleAccounting.cc_awake_time + 100 ∧
    (hal_system_speed_sleep scenarioClock exampleAccounting).cc_asleep_time
      ≠ exampleAccounting.cc_asleep_time + 150 := by
  decide

/-- C10, amended. Sleep scenario: when the counter reads 0, 100, 100, 250 on
successive reads, the first of them being the read that recorded `woke_at = 0`
before the call and the other three the first three reads made by one
`hal_system_speed_sleep` call, the call adds exactly 100 to the awake time and
exactly 150 to the asleep time (on 32 bits), and records
`sleep_started_at = 100`; `woke_at` becomes the value of its fourth read. -/
theorem sleep_scenario_framed (cyc : Nat → Nat) (s : CycleAccounting) (r : Nat)
    (hr : s.reads = r + 1) (hwoke : s.cc_when_woken = DWT_CYCCNT cyc r)
    (h0 : DWT_CYCCNT cyc r = 0) (h1 : DWT_CYCCNT cyc (r + 1) = 100)
    (h2 : DWT_CYCCNT cyc (r + 2) = 100) (h3 : DWT_CYCCNT cyc (r + 3) = 250) :
    (hal_system_speed_sleep cyc s).cc_awake_time = (s.cc_awake_time + 100) % 2 ^ 32 ∧
    (hal_system_speed_sleep cyc s).cc_asleep_time = (s.cc_asleep_time + 150) % 2 ^ 32 ∧
    (s.cc_awake_time + 100 < 2 ^ 32 →
      (hal_system_speed_sleep cyc s).cc_awake_time = s.cc_awake_time + 100) ∧
    (s.cc_asleep_time + 150 < 2 ^ 32 →
      (hal_system_speed_sleep cyc s).cc_asleep_time = s.cc_asleep_time + 150) ∧
    (hal_system_speed_sleep cyc s).cc_when_sleeping = 100 ∧
    (hal_system_speed_sleep cyc s).cc_when_woken = DWT_CYCCNT cyc (r + 4) := by
  obtain ⟨ha, hs, hz, hk⟩ := sleep_fields cyc s
  rw [ha, hs, hz, hk, hr, hwoke, h0, h1, h2, h3]
  refine ⟨?_, ?_, ?_, ?_, rfl, rfl⟩
  · unfold add32 sub32; omega
  · unfold add32 sub32; omega
  · intro h; unfold add32 sub32; omega
  · intro h; unfold add32 sub32; omega

theorem sleep_scenario_framed_witness :
    (hal_system_speed_sleep scenarioClock { exampleAccounting with reads := 1 }).cc_awake_time
      = (40 + 100) % 2 ^ 32 ∧
    (hal_system_speed_sleep scenarioClock { exampleAccounting with reads := 1 }).cc_asleep_time
      = (60 + 150) % 2 ^ 32 ∧
    (40 + 100 < 2 ^ 32 →
      (hal_system_speed_sleep scenarioClock
        { exampleAccounting with reads := 1 }).cc_awake_time = 40 + 100) ∧
    (60 + 150 < 2 ^ 32 →
      (hal_system_speed_sleep scenarioClock
        { exampleAccounting with reads := 1 }).cc_asleep_time = 60 + 150) ∧
    (hal_system_speed_sleep scenarioClock
      { exampleAccounting with reads := 1 }).cc_when_sleeping = 100 ∧
    (hal_system_speed_sleep scenarioClock { exampleAccounting with reads := 1 }).cc_when_woken
      = DWT_CYCCNT scenarioClock (0 + 4) :=
  sleep_scenario_framed scenarioClock { exampleAccounting with reads := 1 } 0
    (by decide) (by decide) (by decide) (by decide) (by decide) (by decide)

/-! ## Load sampling and repeated sleep calls -/

theorem sub32_true_elapsed (t w : Nat) (hwt : w ≤ t) (hd : t - w < 2 ^ 32) :
    sub32 (t % 2 ^ 32) (w % 2 ^ 32) = t - w := by
  unfold sub32
  omega

theorem sleepCalls_reads (cyc : Nat → Nat) (k : Nat) (s : CycleAccounting) :
    (sleepCalls cyc k s).reads = s.reads + 4 * k := by
  induction k with
  | zero => rfl
  | succ k ih =>
    show (hal_system_speed_sleep cyc (sleepCalls cyc k s)).reads = s.reads + 4 * (k + 1)
    have : (hal_system_speed_sleep cyc (sleepCalls cyc k s)).reads
        = (sleepCalls cyc k s).reads + 4 := rfl
    rw [this, ih]
    omega

/-- The true cycle count at which `cc_when_woken` was last recorded after `k`
calls: the wake-up time `W` before the first call, else the last read made. -/
theorem sleepCalls_accounting (cyc : Nat → Nat) (hmono : Monotone cyc)
    (s : CycleAccounting) (W : Nat) (hW : s.cc_when_woken = W % 2 ^ 32)
    (hWr : W ≤ cyc s.reads) (hz : s.cc_awake_time = 0 ∧ s.cc_asleep_time = 0) (k : Nat)
    (hbound : cyc (s.reads + 4 * k + 3) - W < 2 ^ 32) :
    (sleepCalls cyc (k + 1) s).cc_when_woken = cyc (s.reads + 4 * k + 3) % 2 ^ 32 ∧
    (sleepCalls cyc (k + 1) s).cc_awake_time + (sleepCalls cyc (k + 1) s).cc_asleep_time
      + unaccountedCycles cyc s.reads (k + 1) = cyc (s.reads + 4 * k + 3) - W := by
  induction k with
  | zero =>
    obtain ⟨ha, _, hb, hk⟩ := sleep_fields cyc s
    have h01 : cyc s.reads ≤ cyc (s.reads + 1) := hmono (by omega)
    have h12 : cyc (s.reads + 1) ≤ cyc (s.reads + 2) := hmono (by omega)
    have h23 : cyc (s.reads + 2) ≤ cyc (s.reads + 3) := hmono (by omega)
    simp only [Nat.mul_zero, Nat.add_zero] at hbound ⊢
    show (hal_system_speed_sleep cyc s).cc_when_woken = _ ∧
      (hal_system_speed_sleep cyc s).cc_awake_time + (hal_system_speed_sleep cyc s).cc_asleep_time
        + unaccountedCycles cyc s.reads 1 = _
    rw [ha, hb, hk, hz.1, hz.2, hW]
    simp only [DWT_CYCCNT, unaccountedCycles, Nat.mul_zero, Nat.add_zero, Nat.zero_add]
    rw [sub32_true_elapsed _ _ hWr (by omega), sub32_true_elapsed _ _ h12 (by omega)]
    refine ⟨trivial, ?_⟩
    unfold add32
    omega
  | succ k ih =>
    have hr := sleepCalls_reads cyc (k + 1) s
    have hlast : cyc (s.reads + 4 * k + 3) ≤ cyc (s.reads + 4 * (k + 1)) := hmono (by omega)
    have h01 : cyc (s.reads + 4 * (k + 1)) ≤ cyc (s.reads + 4 * (k + 1) + 1) :=
      hmono (by omega)
    have h12 : cyc (s.reads + 4 * (k + 1) + 1) ≤ cyc (s.reads + 4 * (k + 1) + 2) :=
      hmono (by omega)
    have h23 : cyc (s.reads + 4 * (k + 1) + 2) ≤ cyc (s.reads + 4 * (k + 1) + 3) :=
      hmono (by omega)
    have hWk : W ≤ cyc (s.reads + 4 * k + 3) := le_trans hWr (hmono (by omega))
    obtain ⟨ihw, ihs⟩ := ih (by omega)
    obtain ⟨ha, _, hb, hk⟩ := sleep_fields cyc (sleepCalls cyc (k + 1) s)
    show (hal_system_speed_sleep cyc (sleepCalls cyc (k + 1) s)).cc_when_woken = _ ∧
      (hal_system_speed_sleep cyc (sleepCalls cyc (k + 1) s)).cc_awake_time
        + (hal_system_speed_sleep cyc (sleepCalls cyc (k + 1) s)).cc_asleep_time
        + unaccountedCycles cyc s.reads (k + 1 + 1) = _
    rw [ha, hb, hk, ihw, hr]
    simp only [DWT_CYCCNT]
    rw [sub32_true_elapsed _ _ hlast (by omega), sub32_true_elapsed _ _ h12 (by omega)]
    refine ⟨trivial, ?_⟩
    have hu : unaccountedCycles cyc s.reads (k + 1 + 1)
        = unaccountedCycles cyc s.reads (k + 1)
          + (cyc (s.reads + 4 * (k + 1) + 1) - cyc (s.reads + 4 * (k + 1)))
          + (cyc (s.reads + 4 * (k + 1) + 3) - cyc (s.reads + 4 * (k + 1) + 2)) := rfl
    rw [hu]
    unfold add32
    omega

theorem tenStepClock_monotone : Monotone tenStepClock := by
  intro a b h
  unfold tenStepClock
  omega

/-- The load value is a percentage as long as the 32-bit sum does not wrap. -/
theorem load_value_in_range (s : CycleAccounting)
    (hsum : s.cc_asleep_time + s.cc_awake_time < 2 ^ 32)
    (hpos : 0 < s.cc_asleep_time + s.cc_awake_time) :
    ∃ v : ℚ, (hal_system_speed_get_load s).1.value = some v ∧ 0 ≤ v ∧ v ≤ 100 ∧
      v = (s.cc_awake_time : ℚ) / ((s.cc_awake_time : ℚ) + (s.cc_asleep_time : ℚ)) * 100 := by
  have hden : add32 s.cc_asleep_time s.cc_awake_time = s.cc_asleep_time + s.cc_awake_time := by
    unfold add32; omega
  have hne : add32 s.cc_asleep_time s.cc_awake_time ≠ 0 := by rw [hden]; omega
  have hq : (0 : ℚ) < (s.cc_awake_time : ℚ) + (s.cc_asleep_time : ℚ) := by
    have : (0 : ℚ) < ((s.cc_asleep_time + s.cc_awake_time : Nat) : ℚ) := by exact_mod_cast hpos
    push_cast at this
    linarith
  have ha : (0 : ℚ) ≤ (s.cc_awake_time : ℚ) := Nat.cast_nonneg _
  have hb : (0 : ℚ) ≤ (s.cc_asleep_time : ℚ) := Nat.cast_nonneg _
  refine ⟨(s.cc_awake_time : ℚ) / ((s.cc_awake_time : ℚ) + (s.cc_asleep_time : ℚ)) * 100,
    ?_, ?_, ?_, rfl⟩
  · have hne2 : s.cc_asleep_time + s.cc_awake_time ≠ 0 := by omega
    simp only [hal_system_speed_get_load, LoadQuotient.value, hden, if_neg hne2]
    push_cast
    rw [add_comm (s.cc_asleep_time : ℚ)]
  · positivity
  · have : (s.cc_awake_time : ℚ) / ((s.cc_awake_time : ℚ) + (s.cc_asleep_time : ℚ)) ≤ 1 := by
      rw [div_le_one hq]
      linarith
    linarith

/-- C11, refuted as stated: after a load sample with `woke_at = 0`, one
`hal_system_speed_sleep` call driven by a clock that reads 0, 10, 20, 30 leaves
`awake + asleep = 10`, although 30 cycles passed between its first and last
counter read (and 20 between its first and third). -/
theorem conservation_fails_ten_step :
    exampleAccounting.cc_when_woken = tenStepClock 0 ∧
    (sleepCalls tenStepClock 1 (hal_system_speed_get_load exampleAccounting).2).cc_awake_time
      + (sleepCalls tenStepClock 1
          (hal_system_speed_get_load exampleAccounting).2).cc_asleep_time = 10 ∧
    (sleepCalls tenStepClock 1 (hal_system_speed_get_load exampleAccounting).2).cc_awake_time
      + (sleepCalls tenStepClock 1
          (hal_system_speed_get_load exampleAccounting).2).cc_asleep_time
      ≠ tenStepClock 3 - tenStepClock 0 ∧
    (sleepCalls tenStepClock 1 (hal_system_speed_get_load exampleAccounting).2).cc_awake_time
      + (sleepCalls tenStepClock 1
          (hal_system_speed_get_load exampleAccounting).2).cc_asleep_time
      ≠ tenStepClock 2 - tenStepClock 0 := by
  decide

/-- C11, amended. Accounting conservation up to the cycles between paired
reads: for `k ≥ 1` consecutive `hal_system_speed_sleep` calls made after a
`hal_system_speed_get_load` call, driven by a monotone cycle clock, with `W` the
cycle count at which `woke_at` was recorded and less than `2^32` cycles from `W`
to the last read, `awake + asleep` after the `k`-th call plus the cycles that
passed between the first and second read and between the third and fourth read
of each call equals the cycles elapsed from `W` to the last read of the `k`-th
call. -/
theorem sleep_calls_conservation (cyc : Nat → Nat) (hmono : Monotone cyc)
    (s : CycleAccounting) (W : Nat) (hW : s.cc_when_woken = W % 2 ^ 32)
    (hWr : W ≤ cyc s.reads) (k : Nat) (hk : 0 < k)
    (hbound : cyc (s.reads + 4 * k - 1) - W < 2 ^ 32) :
    (sleepCalls cyc k (hal_system_speed_get_load s).2).cc_awake_time
      + (sleepCalls cyc k (hal_system_speed_get_load s).2).cc_asleep_time
      + unaccountedCycles cyc s.reads k
      = cyc (s.reads + 4 * k - 1) - W := by
  obtain ⟨j, rfl⟩ : ∃ j, k = j + 1 := ⟨k - 1, by omega⟩
  have he : s.reads + 4 * (j + 1) - 1 = s.reads + 4 * j + 3 := by omega
  rw [he] at hbound ⊢
  exact (sleepCalls_accounting cyc hmono (hal_system_speed_get_load s).2 W hW hWr
    ⟨rfl, rfl⟩ j hbound).2

theorem sleep_calls_conservation_witness :
    (sleepCalls tenStepClock 2 (hal_system_speed_get_load exampleAccounting).2).cc_awake_time
      + (sleepCalls tenStepClock 2
          (hal_system_speed_get_load exampleAccounting).2).cc_asleep_time
      + unaccountedCycles tenStepClock exampleAccounting.reads 2
      = tenStepClock (exampleAccounting.reads + 4 * 2 - 1) - 0 :=
  sleep_calls_conservation tenStepClock tenStepClock_monotone exampleAccounting 0
    (by decide) (by decide) 2 (by decide) (by decide)

/-- C12. Sampling resets state: after `hal_system_speed_get_load` both
accumulators are 0 while `sleep_started_at` and `woke_at` are unchanged; a second
`hal_system_speed_get_load` with no sleep in between divides 0 by 0, whatever
the first call returned. -/
theorem get_load_resets (s : CycleAccounting) :
    (hal_system_speed_get_load s).2.cc_awake_time = 0 ∧
    (hal_system_speed_get_load s).2.cc_asleep_time = 0 ∧
    (hal_system_speed_get_load s).2.cc_when_sleeping = s.cc_when_sleeping ∧
    (hal_system_speed_get_load s).2.cc_when_woken = s.cc_when_woken ∧
    (hal_system_speed_get_load (hal_system_speed_get_load s).2).1.numerator = 0 ∧
    (hal_system_speed_get_load (hal_system_speed_get_load s).2).1.denominator = 0 ∧
    (hal_system_speed_get_load (hal_system_speed_get_load s).2).1.value = none :=
  ⟨rfl, rfl, rfl, rfl, rfl, rfl, rfl⟩

/-- C13, at the failing input: with 4294967295 awake cycles and 2 asleep cycles
the 32-bit sum wraps to 1, and the load computed is 429496729500, far above
100 and different from `awake / (awake + asleep) * 100`. -/
theorem load_exceeds_100_on_wrapped_sum :
    (hal_system_speed_get_load saturatedAccounting).1.denominator = 1 ∧
    (hal_system_speed_get_load saturatedAccounting).1.value = some 429496729500 ∧
    (100 : ℚ) < 429496729500 ∧
    (429496729500 : ℚ) ≠ (4294967295 : ℚ) / ((4294967295 : ℚ) + 2) * 100 := by
  refine ⟨by decide, ?_, by norm_num, by norm_num⟩
  have hden : (hal_system_speed_get_load saturatedAccounting).1.denominator = 1 := by decide
  have hnum : (hal_system_speed_get_load saturatedAccounting).1.numerator = 4294967295 := by
    decide
  unfold LoadQuotient.value
  rw [hden, hnum]
  norm_num

/-- C14. Wraparound tolerance: when `woke_at` is `w` and the 32-bit counter reads
`(w + d) mod 2^32` at sleep entry, `d` being the cycles truly elapsed (any
`d`, in particular every `d < 2^32`), `hal_system_speed_sleep` adds exactly `d`
to the awake time (mod 2^32), whether or not the counter wrapped past zero; and
when the sleep-start read is taken at cycle `T` and the post-wake read `e`
cycles later, it adds exactly `e` to the asleep time (mod 2^32). -/
theorem sleep_wraparound_tolerant (cyc : Nat → Nat) (s : CycleAccounting)
    (w d T e : Nat) (hw : s.cc_when_woken = w)
    (h1 : DWT_CYCCNT cyc s.reads = (w + d) % 2 ^ 32)
    (h2 : DWT_CYCCNT cyc (s.reads + 1) = T % 2 ^ 32)
    (h3 : DWT_CYCCNT cyc (s.reads + 2) = (T + e) % 2 ^ 32) :
    (hal_system_speed_sleep cyc s).cc_awake_time = (s.cc_awake_time + d) % 2 ^ 32 ∧
    (hal_system_speed_sleep cyc s).cc_asleep_time = (s.cc_asleep_time + e) % 2 ^ 32 := by
  obtain ⟨ha, _, hb, _⟩ := sleep_fields cyc s
  rw [ha, hb, h1, h2, h3, hw]
  constructor
  · unfold add32 sub32; omega
  · unfold add32 sub32; omega

theorem sleep_wraparound_tolerant_witness :
    (hal_system_speed_sleep wrappingClock { lateAccounting with reads := 1 }).cc_awake_time
      = (5 + 2000) % 2 ^ 32 ∧
    (hal_system_speed_sleep wrappingClock { lateAccounting with reads := 1 }).cc_asleep_time
      = (6 + 1000) % 2 ^ 32 :=
  sleep_wraparound_tolerant wrappingClock { lateAccounting with reads := 1 }
    4294966000 2000 4294969000 1000 (by decide) (by decide) (by decide) (by decide)

/-! ## Flag set -/

theorem toBitSet_BV (k : Nat) (hk : k < 16) : toBitSet_t (_BV k) = 2 ^ k := by
  unfold toBitSet_t _BV
  rw [Nat.one_shiftLeft]
  apply Nat.mod_eq_of_lt
  exact Nat.pow_lt_pow_right (by decide) hk

theorem bitsetIsSet_eq_testBit (p n : Nat) (h1 : 1 ≤ n) (h16 : n ≤ 16) :
    bitsetIsSet p n = p.testBit (n - 1) := by
  unfold bitsetIsSet
  rw [toBitSet_BV (n - 1) (by omega), Nat.and_two_pow]
  cases p.testBit (n - 1) <;> simp

theorem testBit_bitsetSet (p n i : Nat) (h1 : 1 ≤ n) (h16 : n ≤ 16) :
    (bitsetSet p n).testBit i = (p.testBit i || decide (n - 1 = i)) := by
  unfold bitsetSet
  rw [toBitSet_BV (n - 1) (by omega), Nat.testBit_or, Nat.testBit_two_pow]

theorem testBit_bitsetClear (p n i : Nat) (hi : i < 16) :
    (bitsetClear p n).testBit i = (p.testBit i && !decide (n - 1 = i)) := by
  unfold bitsetClear toBitSet_t _BV
  rw [Nat.testBit_and, Nat.testBit_mod_two_pow, testBit_not32, Nat.one_shiftLeft,
    Nat.testBit_two_pow]
  have h32 : i < 32 := by omega
  simp [hi, h32]

/-- C15. Flag-set operations: for every pattern `p` and flag number `n` in
1..16, flag `n` is bit `n - 1` of the pattern; after `bitsetSet p n` the flag
`n` is set, after `bitsetClear p n` it is clear, and in both cases every other
flag `m` in 1..16 tests as before. -/
theorem bitset_set_clear_isSet (p n : Nat) (h1 : 1 ≤ n) (h16 : n ≤ 16) :
    bitsetIsSet p n = p.testBit (n - 1) ∧
    bitsetIsSet (bitsetSet p n) n = true ∧
    bitsetIsSet (bitsetClear p n) n = false ∧
    (∀ m, 1 ≤ m → m ≤ 16 → m ≠ n →
      bitsetIsSet (bitsetSet p n) m = bitsetIsSet p m ∧
      bitsetIsSet (bitsetClear p n) m = bitsetIsSet p m) := by
  refine ⟨bitsetIsSet_eq_testBit p n h1 h16, ?_, ?_, ?_⟩
  · rw [bitsetIsSet_eq_testBit _ n h1 h16, testBit_bitsetSet p n _ h1 h16]
    simp
  · rw [bitsetIsSet_eq_testBit _ n h1 h16, testBit_bitsetClear p n _ (by omega)]
    simp
  · intro m hm1 hm16 hmn
    have hne : ¬ (n - 1 = m - 1) := by omega
    rw [bitsetIsSet_eq_testBit _ m hm1 hm16, bitsetIsSet_eq_testBit _ m hm1 hm16,
      bitsetIsSet_eq_testBit _ m hm1 hm16, testBit_bitsetSet p n _ h1 h16,
      testBit_bitsetClear p n _ (by omega)]
    simp [hne]

theorem bitset_set_clear_isSet_witness :
    bitsetIsSet 0x8001 16 = (0x8001 : Nat).testBit (16 - 1) ∧
    bitsetIsSet (bitsetSet 0x8001 16) 16 = true ∧
    bitsetIsSet (bitsetClear 0x8001 16) 16 = false ∧
    (∀ m, 1 ≤ m → m ≤ 16 → m ≠ 16 →
      bitsetIsSet (bitsetSet 0x8001 16) m = bitsetIsSet 0x8001 m ∧
      bitsetIsSet (bitsetClear 0x8001 16) m = bitsetIsSet 0x8001 m) :=
  bitset_set_clear_isSet 0x8001 16 (by decide) (by decide)

/-! ## The write trace and the polls of `hal_system_speed_set_pll` -/

theorem set_pll_writes (c : RccConsts) (hw : Nat → Nat → Nat) (s : RccBank)
    (pll : SystemSpeed_RCC_PLL_t) (h : pll ≠ (hal_system_speed_get_pll c s).1) :
    (hal_system_speed_set_pll c hw s pll).writes
      = s.writes
        ++ [(RccReg.CR, s.CR ||| c.RCC_CR_HSION),
            (RccReg.CFGR, (s.CFGR &&& not32 c.RCC_CFGR_SW) ||| c.RCC_CFGR_SW_HSI),
            (RccReg.CR, (s.CR ||| c.RCC_CR_HSION) &&& not32 c.RCC_CR_PLLON)]
        ++ mergeWrites c pll s.PLLCFGR
        ++ [(RccReg.CR, ((s.CR ||| c.RCC_CR_HSION) &&& not32 c.RCC_CR_PLLON) ||| c.RCC_CR_PLLON),
            (RccReg.CFGR,
              (((s.CFGR &&& not32 c.RCC_CFGR_SW) ||| c.RCC_CFGR_SW_HSI) &&& not32 c.RCC_CFGR_SW)
                ||| c.RCC_CFGR_SW_PLL)] := by
  unfold hal_system_speed_set_pll mergeWrites mergeStep
  simp only [h, if_false]
  simp only [hal_system_speed_get_pll, RccBank.writeCR, RccBank.writeCFGR, RccBank.waitReady,
    RccBank.writePLLCFGR, RccBank.SystemCoreClockUpdate]
  split_ifs <;>
    simp only [List.append_assoc, List.cons_append, List.nil_append, List.append_nil]

theorem set_pll_polls (c : RccConsts) (hw : Nat → Nat → Nat) (s : RccBank)
    (pll : SystemSpeed_RCC_PLL_t) (h : pll ≠ (hal_system_speed_get_pll c s).1) :
    (hal_system_speed_set_pll c hw s pll).polls
      = (spinWait
          (fun k => hal_system_speed_pll_ready c
            (hw k (((s.CR ||| c.RCC_CR_HSION) &&& not32 c.RCC_CR_PLLON) ||| c.RCC_CR_PLLON)))
          0xFFFF
          (spinWait (fun k => hal_system_speed_hsi_ready c (hw k (s.CR ||| c.RCC_CR_HSION)))
            0xFFFF s.polls).2).2 := by
  unfold hal_system_speed_set_pll
  simp only [h, if_false]
  simp only [hal_system_speed_get_pll, RccBank.writeCR, RccBank.writeCFGR, RccBank.waitReady,
    RccBank.writePLLCFGR, RccBank.SystemCoreClockUpdate]
  split_ifs <;> rfl

theorem set_pll_coreClockUpdates (c : RccConsts) (hw : Nat → Nat → Nat) (s : RccBank)
    (pll : SystemSpeed_RCC_PLL_t) (h : pll ≠ (hal_system_speed_get_pll c s).1) :
    (hal_system_speed_set_pll c hw s pll).coreClockUpdates = s.coreClockUpdates + 1 := by
  unfold hal_system_speed_set_pll
  simp only [h, if_false]
  simp only [hal_system_speed_get_pll, RccBank.writeCR, RccBank.writeCFGR, RccBank.waitReady,
    RccBank.writePLLCFGR, RccBank.SystemCoreClockUpdate]
  split_ifs <;> rfl

theorem set_pll_pll_working (c : RccConsts) (hw : Nat → Nat → Nat) (s : RccBank)
    (pll : SystemSpeed_RCC_PLL_t) :
    (hal_system_speed_set_pll c hw s pll).pll_working = s.pll_working := by
  by_cases h : pll = (hal_system_speed_get_pll c s).1
  · rw [set_pll_same c hw s pll h]
  unfold hal_system_speed_set_pll
  simp only [h, if_false]
  simp only [hal_system_speed_get_pll, RccBank.writeCR, RccBank.writeCFGR, RccBank.waitReady,
    RccBank.writePLLCFGR, RccBank.SystemCoreClockUpdate]
  split_ifs <;> rfl

/-! ## The spin-wait -/

theorem spinWait_polls_bounds (ready : Nat → Bool) (t k : Nat) :
    k < (spinWait ready t k).2 ∧ (spinWait ready t k).2 ≤ k + t + 1 := by
  induction t generalizing k with
  | zero =>
    unfold spinWait
    split <;> simp
  | succ t ih =>
    unfold spinWait
    split
    · simp
    · have := ih (k + 1)
      omega

theorem spinWait_first_ready (ready : Nat → Bool) (t k j : Nat) (hkj : k ≤ j)
    (hjt : j ≤ k + t) (hj : ready j = true)
    (hbefore : ∀ i, k ≤ i → i < j → ready i = false) :
    (spinWait ready t k).2 = j + 1 := by
  induction t generalizing k with
  | zero =>
    have hjk : j = k := by omega
    subst hjk
    unfold spinWait
    simp [hj]
  | succ t ih =>
    unfold spinWait
    by_cases hk : ready k = true
    · have hjk : j = k := by
        by_contra hne
        have := hbefore k (le_refl k) (by omega)
        rw [hk] at this
        exact Bool.noConfusion this
      subst hjk
      simp [hk]
    · have hkf : ready k = false := by simpa using hk
      have hne : j ≠ k := by
        intro hjk
        rw [hjk, hkf] at hj
        exact Bool.noConfusion hj
      simp only [hkf, Bool.false_eq_true, if_false]
      exact ih (k + 1) (by omega) (by omega) (fun i hi hij => hbefore i (by omega) hij)

theorem spinWait_never_ready (ready : Nat → Bool) (t k : Nat)
    (hnever : ∀ i, k ≤ i → i ≤ k + t → ready i = false) :
    (spinWait ready t k).2 = k + t + 1 := by
  induction t generalizing k with
  | zero =>
    unfold spinWait
    simp [hnever k (le_refl k) (by omega)]
  | succ t ih =>
    unfold spinWait
    have hkf := hnever k (le_refl k) (by omega)
    simp only [hkf, Bool.false_eq_true, if_false]
    rw [ih (k + 1) (fun i hi hit => hnever i (by omega) (by omega))]
    omega

/-! ## Safety of the writes to `PLLCFGR` -/

theorem pllWritesSafe_optional (c : RccConsts) (cr cfgr : Nat) (b : Prop) [Decidable b]
    (v : Nat) (rest : List (RccReg × Nat))
    (hsafe : cfgr &&& c.RCC_CFGR_SW = c.RCC_CFGR_SW_HSI ∧
      cfgr &&& c.RCC_CFGR_SW ≠ c.RCC_CFGR_SW_PLL ∧ cr &&& c.RCC_CR_PLLON = 0)
    (hrest : pllWritesSafe c cr cfgr rest) :
    pllWritesSafe c cr cfgr ((if b then [(RccReg.PLLCFGR, v)] else []) ++ rest) := by
  split
  · exact ⟨hsafe.1, hsafe.2.1, hsafe.2.2, hrest⟩
  · exact hrest

theorem mergeWrites_only_PLLCFGR (c : RccConsts) (pll : SystemSpeed_RCC_PLL_t) (w : Nat) :
    ∀ x ∈ mergeWrites c pll w, x.1 = RccReg.PLLCFGR := by
  intro x hx
  unfold mergeWrites at hx
  simp only [List.mem_append] at hx
  rcases hx with (((hx | hx) | hx) | hx) | hx <;>
    · split at hx
      · rw [List.mem_singleton] at hx
        rw [hx]
      · exact absurd hx (List.not_mem_nil x)

/-- After `RCC->CFGR = (RCC->CFGR & ~RCC_CFGR_SW) | enc` the selector field
holds the encoding `enc`. -/
theorem selector_after_switch (c : RccConsts) (hc : c.ClockCtlOK) (enc : Nat)
    (henc : enc &&& c.RCC_CFGR_SW = enc) (cfgr : Nat) :
    ((cfgr &&& not32 c.RCC_CFGR_SW) ||| enc) &&& c.RCC_CFGR_SW = enc := by
  obtain ⟨k, hk, hK⟩ := hc.sw
  have hsw32 : ∀ i, c.RCC_CFGR_SW.testBit i = true → i < 32 := by
    intro i hi
    rw [hK, testBit_fieldMask] at hi
    simp at hi
    omega
  have hbits : ∀ i, enc.testBit i = (enc.testBit i && c.RCC_CFGR_SW.testBit i) := by
    intro i
    rw [← Nat.testBit_and, henc]
  apply Nat.eq_of_testBit_eq
  intro i
  simp only [Nat.testBit_and, Nat.testBit_or, testBit_not32]
  cases hs : c.RCC_CFGR_SW.testBit i
  · rw [hbits i, hs]; simp
  · have := hsw32 i hs
    simp [this]

/-- After `RCC->CR &= ~RCC_CR_PLLON` the PLL-enable bit is clear. -/
theorem cr_after_pll_disable (c : RccConsts) (hc : c.ClockCtlOK) (cr : Nat) :
    (cr &&& not32 c.RCC_CR_PLLON) &&& c.RCC_CR_PLLON = 0 := by
  obtain ⟨b, hb, hB⟩ := hc.pllon
  apply Nat.eq_of_testBit_eq
  intro i
  simp only [Nat.testBit_and, testBit_not32, hB, Nat.testBit_two_pow, Nat.zero_testBit]
  by_cases hbi : b = i
  · have : i < 32 := by omega
    simp [hbi, this]
  · simp [hbi]

/-- C17. Safe reprogramming order: the writes of a `hal_system_speed_set_pll`
call that does not short-circuit are, in order, three writes that enable the
oscillator, select it as clock source and clear the PLL-enable bit, then only
writes to `PLLCFGR`, then the write that sets the PLL-enable bit and the write
that selects the PLL; replaying them, every write to `PLLCFGR` finds the
selector at the internal-oscillator encoding (not the PLL one) and the
PLL-enable bit clear. -/
theorem set_pll_reprogramming_order (c : RccConsts) (hc : c.ClockCtlOK)
    (hsrc : c.RCC_CFGR_SW_HSI ≠ c.RCC_CFGR_SW_PLL) (hw : Nat → Nat → Nat) (s : RccBank)
    (desired : SystemSpeed_RCC_PLL_t) (h : desired ≠ (hal_system_speed_get_pll c s).1) :
    ∃ (v1 v2 v3 v4 v5 : Nat) (pllWrites : List (RccReg × Nat)),
      (hal_system_speed_set_pll c hw s desired).writes
        = s.writes ++ [(RccReg.CR, v1), (RccReg.CFGR, v2), (RccReg.CR, v3)] ++ pllWrites
            ++ [(RccReg.CR, v4), (RccReg.CFGR, v5)] ∧
      (∀ x ∈ pllWrites, x.1 = RccReg.PLLCFGR) ∧
      v2 &&& c.RCC_CFGR_SW = c.RCC_CFGR_SW_HSI ∧
      v3 &&& c.RCC_CR_PLLON = 0 ∧
      v4 &&& c.RCC_CR_PLLON = c.RCC_CR_PLLON ∧
      v5 &&& c.RCC_CFGR_SW = c.RCC_CFGR_SW_PLL ∧
      pllWritesSafe c s.CR s.CFGR
        ([(RccReg.CR, v1), (RccReg.CFGR, v2), (RccReg.CR, v3)] ++ pllWrites
          ++ [(RccReg.CR, v4), (RccReg.CFGR, v5)]) := by
  have hv2 := selector_after_switch c hc c.RCC_CFGR_SW_HSI hc.sw_hsi s.CFGR
  have hv3 := cr_after_pll_disable c hc (s.CR ||| c.RCC_CR_HSION)
  have hsafe : ((s.CFGR &&& not32 c.RCC_CFGR_SW) ||| c.RCC_CFGR_SW_HSI) &&& c.RCC_CFGR_SW
        = c.RCC_CFGR_SW_HSI ∧
      ((s.CFGR &&& not32 c.RCC_CFGR_SW) ||| c.RCC_CFGR_SW_HSI) &&& c.RCC_CFGR_SW
        ≠ c.RCC_CFGR_SW_PLL ∧
      ((s.CR ||| c.RCC_CR_HSION) &&& not32 c.RCC_CR_PLLON) &&& c.RCC_CR_PLLON = 0 :=
    ⟨hv2, by rw [hv2]; exact hsrc, hv3⟩
  refine ⟨_, _, _, _, _, mergeWrites c desired s.PLLCFGR,
    set_pll_writes c hw s desired h, mergeWrites_only_PLLCFGR c desired s.PLLCFGR,
    hv2, hv3, ?_, ?_, ?_⟩
  · apply Nat.eq_of_testBit_eq
    intro i
    simp only [Nat.testBit_and, Nat.testBit_or]
    cases c.RCC_CR_PLLON.testBit i <;> simp
  · exact selector_after_switch c hc c.RCC_CFGR_SW_PLL hc.sw_pll _
  · show pllWritesSafe c _ _ (mergeWrites c desired s.PLLCFGR ++ _)
    unfold mergeWrites
    simp only [List.append_assoc]
    exact pllWritesSafe_optional c _ _ _ _ _ hsafe
      (pllWritesSafe_optional c _ _ _ _ _ hsafe
        (pllWritesSafe_optional c _ _ _ _ _ hsafe
          (pllWritesSafe_optional c _ _ _ _ _ hsafe
            (pllWritesSafe_optional c _ _ _ _ _ hsafe trivial))))

theorem set_pll_reprogramming_order_witness :
    ∃ (v1 v2 v3 v4 v5 : Nat) (pllWrites : List (RccReg × Nat)),
      (hal_system_speed_set_pll stm32f446 (fun _ _ => 0) exampleBank ⟨8, 180, 2, 7, 2⟩).writes
        = exampleBank.writes ++ [(RccReg.CR, v1), (RccReg.CFGR, v2), (RccReg.CR, v3)]
            ++ pllWrites ++ [(RccReg.CR, v4), (RccReg.CFGR, v5)] ∧
      (∀ x ∈ pllWrites, x.1 = RccReg.PLLCFGR) ∧
      v2 &&& stm32f446.RCC_CFGR_SW = stm32f446.RCC_CFGR_SW_HSI ∧
      v3 &&& stm32f446.RCC_CR_PLLON = 0 ∧
      v4 &&& stm32f446.RCC_CR_PLLON = stm32f446.RCC_CR_PLLON ∧
      v5 &&& stm32f446.RCC_CFGR_SW = stm32f446.RCC_CFGR_SW_PLL ∧
      pllWritesSafe stm32f446 exampleBank.CR exampleBank.CFGR
        ([(RccReg.CR, v1), (RccReg.CFGR, v2), (RccReg.CR, v3)] ++ pllWrites
          ++ [(RccReg.CR, v4), (RccReg.CFGR, v5)]) :=
  set_pll_reprogramming_order stm32f446 stm32f446_ClockCtlOK (by decide) (fun _ _ => 0)
    exampleBank ⟨8, 180, 2, 7, 2⟩ (by decide)

/-- C18. Bounded waits: `hal_system_speed_set_pll` is a total function, and
under every readiness behaviour a call makes at most `2 * 65536` readiness
polls; a call that does not short-circuit polls through its two spin-waits, the
oscillator wait and then the PLL wait; each spin-wait started with `timeout =
0xFFFF` makes at least 1 and at most 65536 polls, stops right after the first
poll that reports ready, and makes exactly 65536 polls when none does. -/
theorem set_pll_waits_bounded (c : RccConsts) (hw : Nat → Nat → Nat) (s : RccBank)
    (desired : SystemSpeed_RCC_PLL_t) :
    (s.polls ≤ (hal_system_speed_set_pll c hw s desired).polls ∧
      (hal_system_speed_set_pll c hw s desired).polls ≤ s.polls + 2 * 65536) ∧
    (desired ≠ (hal_system_speed_get_pll c s).1 →
      (hal_system_speed_set_pll c hw s desired).polls
        = (spinWait
            (fun k => hal_system_speed_pll_ready c
              (hw k (((s.CR ||| c.RCC_CR_HSION) &&& not32 c.RCC_CR_PLLON)
                ||| c.RCC_CR_PLLON)))
            0xFFFF
            (spinWait (fun k => hal_system_speed_hsi_ready c (hw k (s.CR ||| c.RCC_CR_HSION)))
              0xFFFF s.polls).2).2) ∧
    (∀ (ready : Nat → Bool) (k : Nat),
      k < (spinWait ready 0xFFFF k).2 ∧ (spinWait ready 0xFFFF k).2 ≤ k + 65536) ∧
    (∀ (ready : Nat → Bool) (k j : Nat), k ≤ j → j < k + 65536 → ready j = true →
      (∀ i, k ≤ i → i < j → ready i = false) → (spinWait ready 0xFFFF k).2 = j + 1) ∧
    (∀ (ready : Nat → Bool) (k : Nat), (∀ i, k ≤ i → i < k + 65536 → ready i = false) →
      (spinWait ready 0xFFFF k).2 = k + 65536) := by
  refine ⟨?_, set_pll_polls c hw s desired, ?_, ?_, ?_⟩
  · by_cases h : desired = (hal_system_speed_get_pll c s).1
    · rw [set_pll_same c hw s desired h]
      omega
    · rw [set_pll_polls c hw s desired h]
      have h1 := spinWait_polls_bounds
        (fun k => hal_system_speed_hsi_ready c (hw k (s.CR ||| c.RCC_CR_HSION))) 0xFFFF s.polls
      have h2 := spinWait_polls_bounds
        (fun k => hal_system_speed_pll_ready c
          (hw k (((s.CR ||| c.RCC_CR_HSION) &&& not32 c.RCC_CR_PLLON) ||| c.RCC_CR_PLLON)))
        0xFFFF
        (spinWait (fun k => hal_system_speed_hsi_ready c (hw k (s.CR ||| c.RCC_CR_HSION)))
          0xFFFF s.polls).2
      omega
  · intro ready k
    have := spinWait_polls_bounds ready 0xFFFF k
    omega
  · intro ready k j hkj hj hr hb
    exact spinWait_first_ready ready 0xFFFF k j hkj (by omega) hr hb
  · intro ready k hn
    rw [spinWait_never_ready ready 0xFFFF k (fun i hi hit => hn i hi (by omega))]

theorem set_pll_waits_bounded_witness :
    (hal_system_speed_set_pll stm32f446 (fun _ _ => 0) exampleBank ⟨8, 180, 2, 7, 2⟩).polls
        = (spinWait
            (fun k => hal_system_speed_pll_ready stm32f446
              ((fun _ _ => 0) k
                (((exampleBank.CR ||| stm32f446.RCC_CR_HSION) &&& not32 stm32f446.RCC_CR_PLLON)
                  ||| stm32f446.RCC_CR_PLLON)))
            0xFFFF
            (spinWait
              (fun k => hal_system_speed_hsi_ready stm32f446
                ((fun _ _ => 0) k (exampleBank.CR ||| stm32f446.RCC_CR_HSION)))
              0xFFFF exampleBank.polls).2).2 :=
  (set_pll_waits_bounded stm32f446 (fun _ _ => 0) exampleBank ⟨8, 180, 2, 7, 2⟩).2.1
    (by decide)

/-! ## Repeated presets -/

/-- A preset whose value `n` is already what `N` reads changes nothing but the
working copy. -/
theorem preset_same_N (c : RccConsts) (hw : Nat → Nat → Nat) (s : RccBank) (n : Nat)
    (hn : (hal_system_speed_get_pll c s).1.PLLN = n) :
    hal_system_speed_set_pll c hw
        { s with pll_working := { (hal_system_speed_get_pll c s).1 with PLLN := n } }
        { (hal_system_speed_get_pll c s).1 with PLLN := n }
      = { s with pll_working := (hal_system_speed_get_pll c s).1 } := by
  have hsame : { (hal_system_speed_get_pll c s).1 with PLLN := n }
      = (hal_system_speed_get_pll c s).1 := by
    rw [← hn]
  rw [hsame]
  exact set_pll_same c hw _ _ rfl

/-- C20. Repeated preset is free: on every bank whose `N` field reads 180
(respectively 72), whatever the other fields read, `hal_system_speed_high`
(respectively `hal_system_speed_low`) makes no register write, leaves the three
registers as they are and does not call `SystemCoreClockUpdate`; and when the
same preset is called twice in a row, the second call writes nothing. -/
theorem repeated_preset_writes_nothing (c : RccConsts) (hc : c.PllFieldsOK)
    (hw hw2 : Nat → Nat → Nat) (s : RccBank) :
    ((hal_system_speed_get_pll c s).1.PLLN = 180 →
      (hal_system_speed_high c hw s).writes = s.writes ∧
      (hal_system_speed_high c hw s).CR = s.CR ∧
      (hal_system_speed_high c hw s).CFGR = s.CFGR ∧
      (hal_system_speed_high c hw s).PLLCFGR = s.PLLCFGR ∧
      (hal_system_speed_high c hw s).coreClockUpdates = s.coreClockUpdates) ∧
    ((hal_system_speed_get_pll c s).1.PLLN = 72 →
      (hal_system_speed_low c hw s).writes = s.writes ∧
      (hal_system_speed_low c hw s).CR = s.CR ∧
      (hal_system_speed_low c hw s).CFGR = s.CFGR ∧
      (hal_system_speed_low c hw s).PLLCFGR = s.PLLCFGR ∧
      (hal_system_speed_low c hw s).coreClockUpdates = s.coreClockUpdates) ∧
    (hal_system_speed_high c hw2 (hal_system_speed_high c hw s)).writes
      = (hal_system_speed_high c hw s).writes ∧
    (hal_system_speed_low c hw2 (hal_system_speed_low c hw s)).writes
      = (hal_system_speed_low c hw s).writes := by
  have hhigh : ∀ (h : Nat → Nat → Nat) (b : RccBank),
      (hal_system_speed_get_pll c b).1.PLLN = 180 →
      hal_system_speed_high c h b = { b with pll_working := (hal_system_speed_get_pll c b).1 } :=
    fun h b hn => preset_same_N c h b 180 hn
  have hlow : ∀ (h : Nat → Nat → Nat) (b : RccBank),
      (hal_system_speed_get_pll c b).1.PLLN = 72 →
      hal_system_speed_low c h b = { b with pll_working := (hal_system_speed_get_pll c b).1 } :=
    fun h b hn => preset_same_N c h b 72 hn
  have h180 : (hal_system_speed_get_pll c (hal_system_speed_high c hw s)).1.PLLN = 180 := by
    have := get_set_preset c hc hw s 180 (by decide) (by decide)
    exact congrArg SystemSpeed_RCC_PLL_t.PLLN this
  have h72 : (hal_system_speed_get_pll c (hal_system_speed_low c hw s)).1.PLLN = 72 := by
    have := get_set_preset c hc hw s 72 (by decide) (by decide)
    exact congrArg SystemSpeed_RCC_PLL_t.PLLN this
  refine ⟨?_, ?_, ?_, ?_⟩
  · intro hn
    rw [hhigh hw s hn]
    exact ⟨rfl, rfl, rfl, rfl, rfl⟩
  · intro hn
    rw [hlow hw s hn]
    exact ⟨rfl, rfl, rfl, rfl, rfl⟩
  · rw [hhigh hw2 _ h180]
  · rw [hlow hw2 _ h72]

theorem repeated_preset_writes_nothing_witness :
    (hal_system_speed_high stm32f446 (fun _ _ => 0) zeroFieldBank).writes
      = zeroFieldBank.writes :=
  ((repeated_preset_writes_nothing stm32f446 stm32f446_PllFieldsOK (fun _ _ => 0)
    (fun _ _ => 0) zeroFieldBank).1 (by decide)).1

/-! ## The order of events in one sleep call -/

/-- The events of one `hal_system_speed_sleep` call, in program order: the
critical section is entered before the first counter read and left after the
last one, with the sleep directive between the second and the third read. -/
theorem sleep_log (cyc : Nat → Nat) (s : CycleAccounting) :
    (hal_system_speed_sleep cyc s).log
      = s.log ++
        [SleepEvent.criticalSectionStart,
         SleepEvent.readCycleCounter (DWT_CYCCNT cyc s.reads),
         SleepEvent.readCycleCounter (DWT_CYCCNT cyc (s.reads + 1)),
         SleepEvent.enterSleepMode,
         SleepEvent.readCycleCounter (DWT_CYCCNT cyc (s.reads + 2)),
         SleepEvent.readCycleCounter (DWT_CYCCNT cyc (s.reads + 3)),
         SleepEvent.criticalSectionEnd] := by
  simp [hal_system_speed_sleep]

/-! ## The call with hardware-driven readiness bits in every read of `RCC->CR` -/

theorem crValue_outside_ready (c : RccConsts) (hw : Nat → Nat → Nat) (k cr : Nat) :
    crValue c hw k cr &&& not32 (readyMask c) = cr &&& not32 (readyMask c) := by
  apply Nat.eq_of_testBit_eq
  intro i
  simp only [crValue, Nat.testBit_and, Nat.testBit_or, testBit_not32, Nat.testBit_mod_two_pow]
  cases (readyMask c).testBit i <;> cases decide (i < 32) <;> simp

theorem or_outside_ready (x y m n : Nat) (h : x &&& n = y &&& n) :
    (x ||| m) &&& n = (y ||| m) &&& n := by
  apply Nat.eq_of_testBit_eq
  intro i
  have hi := congrArg (fun z => Nat.testBit z i) h
  simp only [Nat.testBit_and] at hi
  simp only [Nat.testBit_and, Nat.testBit_or]
  cases hn : n.testBit i
  · simp
  · rw [hn] at hi
    simp only [Bool.and_true] at hi
    rw [hi]

theorem and_outside_ready (x y m n : Nat) (h : x &&& n = y &&& n) :
    (x &&& m) &&& n = (y &&& m) &&& n := by
  apply Nat.eq_of_testBit_eq
  intro i
  have hi := congrArg (fun z => Nat.testBit z i) h
  simp only [Nat.testBit_and] at hi
  simp only [Nat.testBit_and]
  cases hn : n.testBit i
  · simp
  · rw [hn] at hi
    simp only [Bool.and_true] at hi
    rw [hi]

theorem crAfterHsiOn_outside_ready (c : RccConsts) (hw : Nat → Nat → Nat) (s : RccBank) :
    crAfterHsiOn c hw s &&& not32 (readyMask c)
      = (s.CR ||| c.RCC_CR_HSION) &&& not32 (readyMask c) :=
  or_outside_ready _ _ _ _ (crValue_outside_ready c hw s.polls s.CR)

theorem crAfterPllOff_outside_ready (c : RccConsts) (hw : Nat → Nat → Nat) (s : RccBank) :
    crAfterPllOff c hw s &&& not32 (readyMask c)
      = ((s.CR ||| c.RCC_CR_HSION) &&& not32 c.RCC_CR_PLLON) &&& not32 (readyMask c) :=
  and_outside_ready _ _ _ _
    ((crValue_outside_ready c hw _ _).trans (crAfterHsiOn_outside_ready c hw s))

theorem crAfterPllOn_outside_ready (c : RccConsts) (hw : Nat → Nat → Nat) (s : RccBank) :
    crAfterPllOn c hw s &&& not32 (readyMask c)
      = (((s.CR ||| c.RCC_CR_HSION) &&& not32 c.RCC_CR_PLLON) ||| c.RCC_CR_PLLON)
          &&& not32 (readyMask c) :=
  or_outside_ready _ _ _ _
    ((crValue_outside_ready c hw _ _).trans (crAfterPllOff_outside_ready c hw s))

theorem set_pll_hw_same (c : RccConsts) (hw : Nat → Nat → Nat) (s : RccBank)
    (pll : SystemSpeed_RCC_PLL_t) (h : pll = (hal_system_speed_get_pll c s).1) :
    hal_system_speed_set_pll_hw c hw s pll = s := by
  unfold hal_system_speed_set_pll_hw
  simp only [h, if_true]
  rfl

theorem set_pll_hw_PLLCFGR (c : RccConsts) (hw : Nat → Nat → Nat) (s : RccBank)
    (pll : SystemSpeed_RCC_PLL_t) (h : pll ≠ (hal_system_speed_get_pll c s).1) :
    (hal_system_speed_set_pll_hw c hw s pll).PLLCFGR = mergedWord c pll s.PLLCFGR := by
  unfold hal_system_speed_set_pll_hw mergedWord mergeStep
  simp only [h, if_false]
  simp only [hal_system_speed_get_pll, RccBank.writeCR, RccBank.writeCFGR,
    RccBank.waitReadyHw, RccBank.writePLLCFGR, RccBank.SystemCoreClockUpdate]
  split_ifs <;> rfl

theorem set_pll_hw_CFGR (c : RccConsts) (hw : Nat → Nat → Nat) (s : RccBank)
    (pll : SystemSpeed_RCC_PLL_t) (h : pll ≠ (hal_system_speed_get_pll c s).1) :
    (hal_system_speed_set_pll_hw c hw s pll).CFGR
      = ((((s.CFGR &&& not32 c.RCC_CFGR_SW) ||| c.RCC_CFGR_SW_HSI) &&& not32 c.RCC_CFGR_SW)
          ||| c.RCC_CFGR_SW_PLL) := by
  unfold hal_system_speed_set_pll_hw
  simp only [h, if_false]
  simp only [hal_system_speed_get_pll, RccBank.writeCR, RccBank.writeCFGR,
    RccBank.waitReadyHw, RccBank.writePLLCFGR, RccBank.SystemCoreClockUpdate]
  split_ifs <;> rfl

theorem set_pll_hw_coreClockUpdates (c : RccConsts) (hw : Nat → Nat → Nat) (s : RccBank)
    (pll : SystemSpeed_RCC_PLL_t) (h : pll ≠ (hal_system_speed_get_pll c s).1) :
    (hal_system_speed_set_pll_hw c hw s pll).coreClockUpdates = s.coreClockUpdates + 1 := by
  unfold hal_system_speed_set_pll_hw
  simp only [h, if_false]
  simp only [hal_system_speed_get_pll, RccBank.writeCR, RccBank.writeCFGR,
    RccBank.waitReadyHw, RccBank.writePLLCFGR, RccBank.SystemCoreClockUpdate]
  split_ifs <;> rfl

theorem set_pll_hw_pll_working (c : RccConsts) (hw : Nat → Nat → Nat) (s : RccBank)
    (pll : SystemSpeed_RCC_PLL_t) :
    (hal_system_speed_set_pll_hw c hw s pll).pll_working = s.pll_working := by
  by_cases h : pll = (hal_system_speed_get_pll c s).1
  · rw [set_pll_hw_same c hw s pll h]
  unfold hal_system_speed_set_pll_hw
  simp only [h, if_false]
  simp only [hal_system_speed_get_pll, RccBank.writeCR, RccBank.writeCFGR,
    RccBank.waitReadyHw, RccBank.writePLLCFGR, RccBank.SystemCoreClockUpdate]
  split_ifs <;> rfl

theorem set_pll_hw_CR (c : RccConsts) (hw : Nat → Nat → Nat) (s : RccBank)
    (pll : SystemSpeed_RCC_PLL_t) (h : pll ≠ (hal_system_speed_get_pll c s).1) :
    (hal_system_speed_set_pll_hw c hw s pll).CR = crAfterPllOn c hw s := by
  unfold hal_system_speed_set_pll_hw crAfterPllOn crAfterPllOff readsAfterHsiWait crAfterHsiOn
  simp only [h, if_false]
  simp only [hal_system_speed_get_pll, RccBank.writeCR, RccBank.writeCFGR,
    RccBank.waitReadyHw, RccBank.writePLLCFGR, RccBank.SystemCoreClockUpdate]
  split_ifs <;> rfl

theorem set_pll_hw_writes (c : RccConsts) (hw : Nat → Nat → Nat) (s : RccBank)
    (pll : SystemSpeed_RCC_PLL_t) (h : pll ≠ (hal_system_speed_get_pll c s).1) :
    (hal_system_speed_set_pll_hw c hw s pll).writes
      = s.writes
        ++ [(RccReg.CR, crAfterHsiOn c hw s),
            (RccReg.CFGR, (s.CFGR &&& not32 c.RCC_CFGR_SW) ||| c.RCC_CFGR_SW_HSI),
            (RccReg.CR, crAfterPllOff c hw s)]
        ++ mergeWrites c pll s.PLLCFGR
        ++ [(RccReg.CR, crAfterPllOn c hw s),
            (RccReg.CFGR,
              (((s.CFGR &&& not32 c.RCC_CFGR_SW) ||| c.RCC_CFGR_SW_HSI) &&& not32 c.RCC_CFGR_SW)
                ||| c.RCC_CFGR_SW_PLL)] := by
  unfold hal_system_speed_set_pll_hw mergeWrites mergeStep crAfterPllOn crAfterPllOff
    readsAfterHsiWait crAfterHsiOn
  simp only [h, if_false]
  simp only [hal_system_speed_get_pll, RccBank.writeCR, RccBank.writeCFGR,
    RccBank.waitReadyHw, RccBank.writePLLCFGR, RccBank.SystemCoreClockUpdate]
  split_ifs <;>
    simp only [List.append_assoc, List.cons_append, List.nil_append, List.append_nil]

theorem maskReady_CR (c : RccConsts) (v : Nat) :
    maskReady c (RccReg.CR, v) = (RccReg.CR, v &&& not32 (readyMask c)) := rfl

theorem maskReady_CFGR (c : RccConsts) (v : Nat) :
    maskReady c (RccReg.CFGR, v) = (RccReg.CFGR, v) := rfl

/-- The call that reads the readiness bits in its read-modify-writes and the
call on the bank taken as a memory leave the same `PLLCFGR` and `CFGR`, the same
`RCC->CR` outside the readiness bits, and the same write log once the readiness
bits of the values written to `RCC->CR` are masked out. -/
theorem set_pll_hw_agrees_with_memory (c : RccConsts) (hw hwm : Nat → Nat → Nat)
    (s : RccBank) (pll : SystemSpeed_RCC_PLL_t) :
    (hal_system_speed_set_pll_hw c hw s pll).writes.map (maskReady c)
      = (hal_system_speed_set_pll c hwm s pll).writes.map (maskReady c) ∧
    (hal_system_speed_set_pll_hw c hw s pll).PLLCFGR
      = (hal_system_speed_set_pll c hwm s pll).PLLCFGR ∧
    (hal_system_speed_set_pll_hw c hw s pll).CFGR
      = (hal_system_speed_set_pll c hwm s pll).CFGR ∧
    (hal_system_speed_set_pll_hw c hw s pll).CR &&& not32 (readyMask c)
      = (hal_system_speed_set_pll c hwm s pll).CR &&& not32 (readyMask c) ∧
    (hal_system_speed_set_pll_hw c hw s pll).coreClockUpdates
      = (hal_system_speed_set_pll c hwm s pll).coreClockUpdates ∧
    (hal_system_speed_set_pll_hw c hw s pll).pll_working
      = (hal_system_speed_set_pll c hwm s pll).pll_working := by
  by_cases h : pll = (hal_system_speed_get_pll c s).1
  · rw [set_pll_hw_same c hw s pll h, set_pll_same c hwm s pll h]
    exact ⟨rfl, rfl, rfl, rfl, rfl, rfl⟩
  · rw [set_pll_hw_writes c hw s pll h, set_pll_writes c hwm s pll h,
      set_pll_hw_PLLCFGR c hw s pll h, set_pll_PLLCFGR c hwm s pll h,
      set_pll_hw_CFGR c hw s pll h, set_pll_CFGR c hwm s pll h,
      set_pll_hw_CR c hw s pll h, set_pll_CR c hwm s pll h,
      set_pll_hw_coreClockUpdates c hw s pll h, set_pll_coreClockUpdates c hwm s pll h,
      set_pll_hw_pll_working c hw s pll, set_pll_pll_working c hwm s pll]
    refine ⟨?_, rfl, rfl, crAfterPllOn_outside_ready c hw s, rfl, rfl⟩
    simp only [List.map_append, List.map_cons, List.map_nil, maskReady_CR, maskReady_CFGR,
      crAfterHsiOn_outside_ready, crAfterPllOff_outside_ready, crAfterPllOn_outside_ready]

/-- C19, refuted as stated: from the example bank and with the same request, a
run in which both readiness bits read as set at once and a run in which the PLL
reads as ready late do not make the same sequence of register writes and do not
end with the same `RCC->CR`: each read-modify-write of `RCC->CR` writes back the
readiness bits it has read. -/
theorem set_pll_hw_writes_depend_on_readiness :
    (hal_system_speed_set_pll_hw stm32f446 readyAtOnce exampleBank ⟨8, 180, 2, 7, 2⟩).writes
      ≠ (hal_system_speed_set_pll_hw stm32f446 pllReadyLate exampleBank
          ⟨8, 180, 2, 7, 2⟩).writes ∧
    (hal_system_speed_set_pll_hw stm32f446 readyAtOnce exampleBank ⟨8, 180, 2, 7, 2⟩).CR
      ≠ (hal_system_speed_set_pll_hw stm32f446 pllReadyLate exampleBank
          ⟨8, 180, 2, 7, 2⟩).CR := by
  decide

/-- C19, amended. Timeout does not change the outcome outside the readiness
bits: two runs of `hal_system_speed_set_pll` from the same bank with the same
request, under any two behaviours of the readiness bits, write the same
registers in the same order with the same values once the readiness bits of the
values written to `RCC->CR` are masked out, and end with the same `PLLCFGR`, the
same `CFGR`, the same `RCC->CR` on every bit that is not a readiness bit (hence
the same enable bits), the same number of `SystemCoreClockUpdate` calls and the
same `pll_working`. -/
theorem set_pll_hw_outcome_up_to_ready_bits (c : RccConsts) (hw1 hw2 : Nat → Nat → Nat)
    (s : RccBank) (desired : SystemSpeed_RCC_PLL_t) :
    (hal_system_speed_set_pll_hw c hw1 s desired).writes.map (maskReady c)
      = (hal_system_speed_set_pll_hw c hw2 s desired).writes.map (maskReady c) ∧
    (hal_system_speed_set_pll_hw c hw1 s desired).PLLCFGR
      = (hal_system_speed_set_pll_hw c hw2 s desired).PLLCFGR ∧
    (hal_system_speed_set_pll_hw c hw1 s desired).CFGR
      = (hal_system_speed_set_pll_hw c hw2 s desired).CFGR ∧
    (hal_system_speed_set_pll_hw c hw1 s desired).CR &&& not32 (readyMask c)
      = (hal_system_speed_set_pll_hw c hw2 s desired).CR &&& not32 (readyMask c) ∧
    (∀ i, i < 32 → (readyMask c).testBit i = false →
      (hal_system_speed_set_pll_hw c hw1 s desired).CR.testBit i
        = (hal_system_speed_set_pll_hw c hw2 s desired).CR.testBit i) ∧
    (hal_system_speed_set_pll_hw c hw1 s desired).coreClockUpdates
      = (hal_system_speed_set_pll_hw c hw2 s desired).coreClockUpdates ∧
    (hal_system_speed_set_pll_hw c hw1 s desired).pll_working
      = (hal_system_speed_set_pll_hw c hw2 s desired).pll_working := by
  obtain ⟨a1, a2, a3, a4, a5, a6⟩ := set_pll_hw_agrees_with_memory c hw1 hw1 s desired
  obtain ⟨b1, b2, b3, b4, b5, b6⟩ := set_pll_hw_agrees_with_memory c hw2 hw1 s desired
  have hcr := a4.trans b4.symm
  refine ⟨a1.trans b1.symm, a2.trans b2.symm, a3.trans b3.symm, hcr, ?_,
    a5.trans b5.symm, a6.trans b6.symm⟩
  intro i h32 hi
  have hbit := congrArg (fun z => Nat.testBit z i) hcr
  simp only [Nat.testBit_and, testBit_not32, hi, h32, decide_True, Bool.xor_false,
    Bool.and_true] at hbit
  exact hbit

theorem set_pll_hw_outcome_up_to_ready_bits_witness :
    (hal_system_speed_set_pll_hw stm32f446 readyAtOnce exampleBank
        ⟨8, 180, 2, 7, 2⟩).CR.testBit 24
      = (hal_system_speed_set_pll_hw stm32f446 pllReadyLate exampleBank
          ⟨8, 180, 2, 7, 2⟩).CR.testBit 24 :=
  (set_pll_hw_outcome_up_to_ready_bits stm32f446 readyAtOnce pllReadyLate exampleBank
    ⟨8, 180, 2, 7, 2⟩).2.2.2.2.1 24 (by decide) (by decide)

end SystemSpeed
